import Mathlib

/-!
Verification of the `paeth` crate: Paeth shear decompositions of 2-d and 3-d
rotations (`src/lib.rs`) and the OpenCL two-pass shear pipeline
(`src/opencl.rs`).

The numeric scalar type `N : BaseFloat` of the Rust code is embedded as `ℚ`
(exact arithmetic); machine-float rounding is outside the embedding, so
"within floating-point tolerance" statements are settled with exact equalities
or exact bounds.
-/

namespace Paeth

/-- `nalgebra::Matrix2<N>`: a 2×2 matrix with named entries, row-major names
as in nalgebra (`m11` = row 1 column 1, ...). -/
structure Matrix2 where
  m11 : ℚ
  m12 : ℚ
  m21 : ℚ
  m22 : ℚ
deriving DecidableEq

/-- Matrix product of `nalgebra` 2×2 matrices (row-times-column). -/
def Matrix2.mul (a b : Matrix2) : Matrix2 :=
  { m11 := a.m11 * b.m11 + a.m12 * b.m21
    m12 := a.m11 * b.m12 + a.m12 * b.m22
    m21 := a.m21 * b.m11 + a.m22 * b.m21
    m22 := a.m21 * b.m12 + a.m22 * b.m22 }

instance : Mul Matrix2 := ⟨Matrix2.mul⟩

theorem Matrix2.mul2_def (a b : Matrix2) :
    a * b = { m11 := a.m11 * b.m11 + a.m12 * b.m21
              m12 := a.m11 * b.m12 + a.m12 * b.m22
              m21 := a.m21 * b.m11 + a.m22 * b.m21
              m22 := a.m21 * b.m12 + a.m22 * b.m22 } := rfl

/-- `PaethRotation2<N>` (src/lib.rs lines 35-41): the compact shear
descriptor `{xx, xy, yx, yy}` of a 2-d Paeth decomposition. -/
structure PaethRotation2 where
  xx : ℚ
  xy : ℚ
  yx : ℚ
  yy : ℚ
deriving DecidableEq

namespace PaethRotation2

/-- `PaethRotation2::new_from_matrix` (src/lib.rs lines 49-56). -/
def new_from_matrix (m : Matrix2) : PaethRotation2 :=
  { xx := m.m11
    xy := m.m12
    yx := m.m21 / m.m11
    yy := m.m22 - m.m21 * m.m12 / m.m11 }

/-- `PaethRotation2::shear_y` (src/lib.rs lines 58-65). -/
def shear_y (p : PaethRotation2) : Matrix2 :=
  { m11 := 1, m12 := 0, m21 := p.yx, m22 := p.yy }

/-- `PaethRotation2::shear_x` (src/lib.rs lines 67-74). -/
def shear_x (p : PaethRotation2) : Matrix2 :=
  { m11 := p.xx, m12 := p.xy, m21 := 0, m22 := 1 }

end PaethRotation2

theorem shear2_reconstruct (m : Matrix2) (h : m.m11 ≠ 0) :
    (PaethRotation2.new_from_matrix m).shear_y *
      (PaethRotation2.new_from_matrix m).shear_x = m := by
  obtain ⟨a, b, c, d⟩ := m
  simp only [PaethRotation2.new_from_matrix, PaethRotation2.shear_y,
    PaethRotation2.shear_x, Matrix2.mul2_def] at *
  simp only [Matrix2.mk.injEq]
  refine ⟨by ring, by ring, ?_, ?_⟩
  · field_simp
  · field_simp

/-- C1: for every 2×2 matrix `m` with `m11 ≠ 0`, the decomposition
`PaethRotation2::new_from_matrix(m)` satisfies `shear_y() * shear_x() = m`,
exactly in exact arithmetic. -/
theorem paeth2_shear_y_mul_shear_x (m : Matrix2) (h : m.m11 ≠ 0) :
    (PaethRotation2.new_from_matrix m).shear_y *
      (PaethRotation2.new_from_matrix m).shear_x = m :=
  shear2_reconstruct m h

/-- Witness for C1 at the concrete matrix `[[2,3],[4,5]]`. -/
theorem paeth2_shear_y_mul_shear_x_witness :
    (Matrix2.mk 2 3 4 5).m11 ≠ 0 ∧
      (PaethRotation2.new_from_matrix ⟨2, 3, 4, 5⟩).shear_y *
        (PaethRotation2.new_from_matrix ⟨2, 3, 4, 5⟩).shear_x = ⟨2, 3, 4, 5⟩ :=
  ⟨by norm_num, paeth2_shear_y_mul_shear_x ⟨2, 3, 4, 5⟩ (by norm_num)⟩

/-- C6: for every 2×2 matrix `m` with `m11 ≠ 0`, `new_from_matrix` returns
exactly the descriptor `xx = m11, xy = m12, yx = m21/m11,
yy = m22 - m21*m12/m11`. -/
theorem paeth2_new_from_matrix_entries (m : Matrix2) (_h : m.m11 ≠ 0) :
    PaethRotation2.new_from_matrix m =
      { xx := m.m11
        xy := m.m12
        yx := m.m21 / m.m11
        yy := m.m22 - m.m21 * m.m12 / m.m11 } := rfl

/-- Witness for C6 at the concrete matrix `[[2,3],[4,5]]`. -/
theorem paeth2_new_from_matrix_entries_witness :
    (Matrix2.mk 2 3 4 5).m11 ≠ 0 ∧
      PaethRotation2.new_from_matrix ⟨2, 3, 4, 5⟩ = ⟨2, 3, 4 / 2, 5 - 4 * 3 / 2⟩ :=
  ⟨by norm_num, paeth2_new_from_matrix_entries ⟨2, 3, 4, 5⟩ (by norm_num)⟩

/-- C2 counterexample: for the rotation `R = [[3/5,-4/5],[4/5,3/5]]`
(cos = 3/5, sin = 4/5, so `R` is orthonormal with determinant 1 and
`|m11| = 3/5` well above any ε), the product `shear_x() * shear_y()` differs
from `R` in the (1,1) entry by `16/15 > 1e-4`: the spec's composition order
`X·Y` does not reconstruct the rotation. -/
theorem paeth2_xy_order_fails :
    |((PaethRotation2.new_from_matrix ⟨3/5, -4/5, 4/5, 3/5⟩).shear_x *
        (PaethRotation2.new_from_matrix ⟨3/5, -4/5, 4/5, 3/5⟩).shear_y).m11 -
      (Matrix2.mk (3/5) (-4/5) (4/5) (3/5)).m11| > 1 / 10000 := by
  norm_num [PaethRotation2.new_from_matrix, PaethRotation2.shear_x,
    PaethRotation2.shear_y, Matrix2.mul2_def]
  rw [abs_of_nonneg (by norm_num)]
  norm_num

/-- C2 amended: for every 2×2 rotation matrix `[[c,-s],[s,c]]` with
`c² + s² = 1` and `c ≠ 0`, the product in the order `shear_y() * shear_x()`
(Y-shear times X-shear) reproduces `R` component-wise within 1e-4 (indeed
exactly). -/
theorem paeth2_rotation_reconstruct (c s : ℚ) (_hcs : c ^ 2 + s ^ 2 = 1)
    (hc : c ≠ 0) :
    ∀ p, p = PaethRotation2.new_from_matrix ⟨c, -s, s, c⟩ →
      |(p.shear_y * p.shear_x).m11 - c| ≤ 1 / 10000 ∧
      |(p.shear_y * p.shear_x).m12 - (-s)| ≤ 1 / 10000 ∧
      |(p.shear_y * p.shear_x).m21 - s| ≤ 1 / 10000 ∧
      |(p.shear_y * p.shear_x).m22 - c| ≤ 1 / 10000 := by
  intro p hp
  subst hp
  have h := shear2_reconstruct ⟨c, -s, s, c⟩ hc
  rw [h]
  norm_num

/-- Witness for the amended C2 at the rational rotation cos = 3/5,
sin = 4/5. -/
theorem paeth2_rotation_reconstruct_witness :
    (3/5 : ℚ) ^ 2 + (4/5 : ℚ) ^ 2 = 1 ∧
      ∀ p, p = PaethRotation2.new_from_matrix ⟨3/5, -(4/5), 4/5, 3/5⟩ →
        |(p.shear_y * p.shear_x).m11 - 3/5| ≤ 1 / 10000 ∧
        |(p.shear_y * p.shear_x).m12 - (-(4/5))| ≤ 1 / 10000 ∧
        |(p.shear_y * p.shear_x).m21 - 4/5| ≤ 1 / 10000 ∧
        |(p.shear_y * p.shear_x).m22 - 3/5| ≤ 1 / 10000 :=
  ⟨by norm_num, paeth2_rotation_reconstruct (3/5) (4/5) (by norm_num) (by norm_num)⟩

/-! ## 3-d decomposition (src/lib.rs lines 101-217) -/

/-- `nalgebra::Matrix3<N>`: a 3×3 matrix with nalgebra's named entries. -/
@[ext]
structure Matrix3 where
  m11 : ℚ
  m12 : ℚ
  m13 : ℚ
  m21 : ℚ
  m22 : ℚ
  m23 : ℚ
  m31 : ℚ
  m32 : ℚ
  m33 : ℚ
deriving DecidableEq

/-- Matrix product of `nalgebra` 3×3 matrices (row-times-column). -/
def Matrix3.mul (a b : Matrix3) : Matrix3 :=
  { m11 := a.m11 * b.m11 + a.m12 * b.m21 + a.m13 * b.m31
    m12 := a.m11 * b.m12 + a.m12 * b.m22 + a.m13 * b.m32
    m13 := a.m11 * b.m13 + a.m12 * b.m23 + a.m13 * b.m33
    m21 := a.m21 * b.m11 + a.m22 * b.m21 + a.m23 * b.m31
    m22 := a.m21 * b.m12 + a.m22 * b.m22 + a.m23 * b.m32
    m23 := a.m21 * b.m13 + a.m22 * b.m23 + a.m23 * b.m33
    m31 := a.m31 * b.m11 + a.m32 * b.m21 + a.m33 * b.m31
    m32 := a.m31 * b.m12 + a.m32 * b.m22 + a.m33 * b.m32
    m33 := a.m31 * b.m13 + a.m32 * b.m23 + a.m33 * b.m33 }

instance : Mul Matrix3 := ⟨Matrix3.mul⟩

theorem Matrix3.mul3_def (a b : Matrix3) :
    a * b = { m11 := a.m11 * b.m11 + a.m12 * b.m21 + a.m13 * b.m31
              m12 := a.m11 * b.m12 + a.m12 * b.m22 + a.m13 * b.m32
              m13 := a.m11 * b.m13 + a.m12 * b.m23 + a.m13 * b.m33
              m21 := a.m21 * b.m11 + a.m22 * b.m21 + a.m23 * b.m31
              m22 := a.m21 * b.m12 + a.m22 * b.m22 + a.m23 * b.m32
              m23 := a.m21 * b.m13 + a.m22 * b.m23 + a.m23 * b.m33
              m31 := a.m31 * b.m11 + a.m32 * b.m21 + a.m33 * b.m31
              m32 := a.m31 * b.m12 + a.m32 * b.m22 + a.m33 * b.m32
              m33 := a.m31 * b.m13 + a.m32 * b.m23 + a.m33 * b.m33 } := rfl

/-- Determinant of a 3×3 matrix (cofactor expansion along row 1). -/
def Matrix3.det (a : Matrix3) : ℚ :=
  a.m11 * (a.m22 * a.m33 - a.m23 * a.m32)
    - a.m12 * (a.m21 * a.m33 - a.m23 * a.m31)
    + a.m13 * (a.m21 * a.m32 - a.m22 * a.m31)

/-- `nalgebra::inverse` on a 3×3 matrix: `None` exactly when the determinant
is zero, otherwise the adjugate divided by the determinant (in exact
arithmetic any correct matrix inverse equals this). -/
def inverse3 (a : Matrix3) : Option Matrix3 :=
  if a.det = 0 then none
  else some
    { m11 := (a.m22 * a.m33 - a.m23 * a.m32) / a.det
      m12 := -(a.m12 * a.m33 - a.m13 * a.m32) / a.det
      m13 := (a.m12 * a.m23 - a.m13 * a.m22) / a.det
      m21 := -(a.m21 * a.m33 - a.m23 * a.m31) / a.det
      m22 := (a.m11 * a.m33 - a.m13 * a.m31) / a.det
      m23 := -(a.m11 * a.m23 - a.m13 * a.m21) / a.det
      m31 := (a.m21 * a.m32 - a.m22 * a.m31) / a.det
      m32 := -(a.m11 * a.m32 - a.m12 * a.m31) / a.det
      m33 := (a.m11 * a.m22 - a.m12 * a.m21) / a.det }

/-- `shear_x_from_entries` (src/lib.rs lines 114-128). -/
def shear_x_from_entries (xx xy xz : ℚ) : Matrix3 :=
  { m11 := xx, m12 := xy, m13 := xz
    m21 := 0, m22 := 1, m23 := 0
    m31 := 0, m32 := 0, m33 := 1 }

/-- `shear_y_from_entries` (src/lib.rs lines 130-144). -/
def shear_y_from_entries (yx yy yz : ℚ) : Matrix3 :=
  { m11 := 1, m12 := 0, m13 := 0
    m21 := yx, m22 := yy, m23 := yz
    m31 := 0, m32 := 0, m33 := 1 }

/-- `shear_z_from_entries` (src/lib.rs lines 146-160). -/
def shear_z_from_entries (zx zy zz : ℚ) : Matrix3 :=
  { m11 := 1, m12 := 0, m13 := 0
    m21 := 0, m22 := 1, m23 := 0
    m31 := zx, m32 := zy, m33 := zz }

/-- `PaethRotation3<N>` (src/lib.rs lines 101-112). -/
structure PaethRotation3 where
  xx : ℚ
  xy : ℚ
  xz : ℚ
  yx : ℚ
  yy : ℚ
  yz : ℚ
  zx : ℚ
  zy : ℚ
  zz : ℚ
deriving DecidableEq

namespace PaethRotation3

/-- `PaethRotation3::new_from_matrix` (src/lib.rs lines 168-204).
The two `.expect(...)` calls panic when `nalgebra::inverse` returns `None`;
the panic is modelled as `none`. -/
def new_from_matrix (m : Matrix3) : Option PaethRotation3 :=
  (inverse3 (shear_x_from_entries m.m11 m.m12 m.m13)).bind fun sxi =>
    let m_less_x := m * sxi
    (inverse3 (shear_y_from_entries m_less_x.m21 m_less_x.m22 m_less_x.m23)).bind
      fun syi =>
        let m_less_yx := m_less_x * syi
        some { xx := m.m11, xy := m.m12, xz := m.m13
               yx := m_less_x.m21, yy := m_less_x.m22, yz := m_less_x.m23
               zx := m_less_yx.m31, zy := m_less_yx.m32, zz := m_less_yx.m33 }

/-- `PaethRotation3::shear_x` (src/lib.rs lines 206-208). -/
def shear_x (p : PaethRotation3) : Matrix3 :=
  shear_x_from_entries p.xx p.xy p.xz

/-- `PaethRotation3::shear_y` (src/lib.rs lines 210-212). -/
def shear_y (p : PaethRotation3) : Matrix3 :=
  shear_y_from_entries p.yx p.yy p.yz

/-- `PaethRotation3::shear_z` (src/lib.rs lines 214-216). -/
def shear_z (p : PaethRotation3) : Matrix3 :=
  shear_z_from_entries p.zx p.zy p.zz

end PaethRotation3

/-- The intermediate `m_less_x = m * inverse(shear_x)` of
`PaethRotation3::new_from_matrix` (src/lib.rs line 178). -/
def mLessX3 (m : Matrix3) : Option Matrix3 :=
  (inverse3 (shear_x_from_entries m.m11 m.m12 m.m13)).map fun sxi => m * sxi

/-- The residual `m_less_yx = m * inverse(shear_x) * inverse(shear_y)` of
`PaethRotation3::new_from_matrix` (src/lib.rs line 185). -/
def residual3 (m : Matrix3) : Option Matrix3 :=
  (mLessX3 m).bind fun m1 =>
    (inverse3 (shear_y_from_entries m1.m21 m1.m22 m1.m23)).map fun syi => m1 * syi

theorem det_shear_x (xx xy xz : ℚ) : (shear_x_from_entries xx xy xz).det = xx := by
  simp [shear_x_from_entries, Matrix3.det]

theorem det_shear_y (yx yy yz : ℚ) : (shear_y_from_entries yx yy yz).det = yy := by
  simp [shear_y_from_entries, Matrix3.det]

theorem inverse3_shear_x (xx xy xz : ℚ) (h : xx ≠ 0) :
    inverse3 (shear_x_from_entries xx xy xz) =
      some { m11 := 1 / xx, m12 := -(xy / xx), m13 := -(xz / xx)
             m21 := 0, m22 := 1, m23 := 0
             m31 := 0, m32 := 0, m33 := 1 } := by
  simp only [inverse3, det_shear_x]
  rw [if_neg h]
  simp only [shear_x_from_entries, Option.some.injEq, Matrix3.mk.injEq]
  norm_num
  refine ⟨by ring, by ring, by field_simp <;> ring⟩

theorem inverse3_shear_y (yx yy yz : ℚ) (h : yy ≠ 0) :
    inverse3 (shear_y_from_entries yx yy yz) =
      some { m11 := 1, m12 := 0, m13 := 0
             m21 := -(yx / yy), m22 := 1 / yy, m23 := -(yz / yy)
             m31 := 0, m32 := 0, m33 := 1 } := by
  simp only [inverse3, det_shear_y]
  rw [if_neg h]
  simp only [shear_y_from_entries, Option.some.injEq, Matrix3.mk.injEq]
  norm_num
  refine ⟨by field_simp <;> ring, by ring, by ring, by field_simp <;> ring⟩


/-- The 3×3 identity matrix. -/
def one3 : Matrix3 :=
  { m11 := 1, m12 := 0, m13 := 0
    m21 := 0, m22 := 1, m23 := 0
    m31 := 0, m32 := 0, m33 := 1 }

theorem Matrix3.mul_assoc3 (a b c : Matrix3) : a * b * c = a * (b * c) := by
  simp only [Matrix3.mul3_def, Matrix3.mk.injEq]
  exact ⟨by ring, by ring, by ring, by ring, by ring, by ring, by ring, by ring, by ring⟩

theorem Matrix3.mul_one3 (a : Matrix3) : a * one3 = a := by
  obtain ⟨a11, a12, a13, a21, a22, a23, a31, a32, a33⟩ := a
  simp only [Matrix3.mul3_def, one3, Matrix3.mk.injEq]
  exact ⟨by ring, by ring, by ring, by ring, by ring, by ring, by ring, by ring, by ring⟩

theorem shear_x_mul_inv (xx xy xz : ℚ) (h : xx ≠ 0) :
    shear_x_from_entries xx xy xz *
      ({ m11 := 1 / xx, m12 := -(xy / xx), m13 := -(xz / xx)
         m21 := 0, m22 := 1, m23 := 0
         m31 := 0, m32 := 0, m33 := 1 } : Matrix3) = one3 := by
  simp only [shear_x_from_entries, Matrix3.mul3_def, one3, Matrix3.mk.injEq]
  refine ⟨by field_simp <;> ring, by field_simp <;> ring, by field_simp <;> ring,
    by ring, by ring, by ring, by ring, by ring, by ring⟩

theorem shear_x_inv_mul (xx xy xz : ℚ) (h : xx ≠ 0) :
    ({ m11 := 1 / xx, m12 := -(xy / xx), m13 := -(xz / xx)
       m21 := 0, m22 := 1, m23 := 0
       m31 := 0, m32 := 0, m33 := 1 } : Matrix3) *
      shear_x_from_entries xx xy xz = one3 := by
  simp only [shear_x_from_entries, Matrix3.mul3_def, one3, Matrix3.mk.injEq]
  refine ⟨by field_simp <;> ring, by field_simp <;> ring, by field_simp <;> ring,
    by ring, by ring, by ring, by ring, by ring, by ring⟩

theorem shear_y_mul_inv (yx yy yz : ℚ) (h : yy ≠ 0) :
    shear_y_from_entries yx yy yz *
      ({ m11 := 1, m12 := 0, m13 := 0
         m21 := -(yx / yy), m22 := 1 / yy, m23 := -(yz / yy)
         m31 := 0, m32 := 0, m33 := 1 } : Matrix3) = one3 := by
  simp only [shear_y_from_entries, Matrix3.mul3_def, one3, Matrix3.mk.injEq]
  refine ⟨by ring, by ring, by ring,
    by field_simp <;> ring, by field_simp <;> ring, by field_simp <;> ring, by ring, by ring, by ring⟩

theorem shear_y_inv_mul (yx yy yz : ℚ) (h : yy ≠ 0) :
    ({ m11 := 1, m12 := 0, m13 := 0
       m21 := -(yx / yy), m22 := 1 / yy, m23 := -(yz / yy)
       m31 := 0, m32 := 0, m33 := 1 } : Matrix3) *
      shear_y_from_entries yx yy yz = one3 := by
  simp only [shear_y_from_entries, Matrix3.mul3_def, one3, Matrix3.mk.injEq]
  refine ⟨by ring, by ring, by ring,
    by field_simp <;> ring, by field_simp <;> ring, by field_simp <;> ring, by ring, by ring, by ring⟩

theorem reconstruct3_core (m : Matrix3)
    (h1 : m.m11 ≠ 0) (m1 : Matrix3) (hm1 : mLessX3 m = some m1)
    (h2 : m1.m22 ≠ 0) :
    ∃ p, PaethRotation3.new_from_matrix m = some p ∧
      residual3 m = some (shear_z_from_entries p.zx p.zy p.zz) ∧
      p.shear_z * p.shear_y * p.shear_x = m := by
  have hsx := inverse3_shear_x m.m11 m.m12 m.m13 h1
  simp only [mLessX3, hsx, Option.map_some'] at hm1
  obtain rfl := Option.some.inj hm1
  have hsy := inverse3_shear_y (m * { m11 := 1 / m.m11, m12 := -(m.m12 / m.m11), m13 := -(m.m13 / m.m11), m21 := 0, m22 := 1, m23 := 0, m31 := 0, m32 := 0, m33 := 1 }).m21 (m * { m11 := 1 / m.m11, m12 := -(m.m12 / m.m11), m13 := -(m.m13 / m.m11), m21 := 0, m22 := 1, m23 := 0, m31 := 0, m32 := 0, m33 := 1 }).m22 (m * { m11 := 1 / m.m11, m12 := -(m.m12 / m.m11), m13 := -(m.m13 / m.m11), m21 := 0, m22 := 1, m23 := 0, m31 := 0, m32 := 0, m33 := 1 }).m23 h2
  have e11 : (m * { m11 := 1 / m.m11, m12 := -(m.m12 / m.m11), m13 := -(m.m13 / m.m11), m21 := 0, m22 := 1, m23 := 0, m31 := 0, m32 := 0, m33 := 1 }).m11 = 1 := by
    rw [show (m * { m11 := 1 / m.m11, m12 := -(m.m12 / m.m11), m13 := -(m.m13 / m.m11), m21 := 0, m22 := 1, m23 := 0, m31 := 0, m32 := 0, m33 := 1 }).m11 =
        (shear_x_from_entries m.m11 m.m12 m.m13 * { m11 := 1 / m.m11, m12 := -(m.m12 / m.m11), m13 := -(m.m13 / m.m11), m21 := 0, m22 := 1, m23 := 0, m31 := 0, m32 := 0, m33 := 1 }).m11 from rfl,
      shear_x_mul_inv m.m11 m.m12 m.m13 h1]
    rfl
  have e12 : (m * { m11 := 1 / m.m11, m12 := -(m.m12 / m.m11), m13 := -(m.m13 / m.m11), m21 := 0, m22 := 1, m23 := 0, m31 := 0, m32 := 0, m33 := 1 }).m12 = 0 := by
    rw [show (m * { m11 := 1 / m.m11, m12 := -(m.m12 / m.m11), m13 := -(m.m13 / m.m11), m21 := 0, m22 := 1, m23 := 0, m31 := 0, m32 := 0, m33 := 1 }).m12 =
        (shear_x_from_entries m.m11 m.m12 m.m13 * { m11 := 1 / m.m11, m12 := -(m.m12 / m.m11), m13 := -(m.m13 / m.m11), m21 := 0, m22 := 1, m23 := 0, m31 := 0, m32 := 0, m33 := 1 }).m12 from rfl,
      shear_x_mul_inv m.m11 m.m12 m.m13 h1]
    rfl
  have e13 : (m * { m11 := 1 / m.m11, m12 := -(m.m12 / m.m11), m13 := -(m.m13 / m.m11), m21 := 0, m22 := 1, m23 := 0, m31 := 0, m32 := 0, m33 := 1 }).m13 = 0 := by
    rw [show (m * { m11 := 1 / m.m11, m12 := -(m.m12 / m.m11), m13 := -(m.m13 / m.m11), m21 := 0, m22 := 1, m23 := 0, m31 := 0, m32 := 0, m33 := 1 }).m13 =
        (shear_x_from_entries m.m11 m.m12 m.m13 * { m11 := 1 / m.m11, m12 := -(m.m12 / m.m11), m13 := -(m.m13 / m.m11), m21 := 0, m22 := 1, m23 := 0, m31 := 0, m32 := 0, m33 := 1 }).m13 from rfl,
      shear_x_mul_inv m.m11 m.m12 m.m13 h1]
    rfl
  have f21 : ((m * { m11 := 1 / m.m11, m12 := -(m.m12 / m.m11), m13 := -(m.m13 / m.m11), m21 := 0, m22 := 1, m23 := 0, m31 := 0, m32 := 0, m33 := 1 }) * { m11 := 1, m12 := 0, m13 := 0, m21 := -((m * { m11 := 1 / m.m11, m12 := -(m.m12 / m.m11), m13 := -(m.m13 / m.m11), m21 := 0, m22 := 1, m23 := 0, m31 := 0, m32 := 0, m33 := 1 }).m21 / (m * { m11 := 1 / m.m11, m12 := -(m.m12 / m.m11), m13 := -(m.m13 / m.m11), m21 := 0, m22 := 1, m23 := 0, m31 := 0, m32 := 0, m33 := 1 }).m22), m22 := 1 / (m * { m11 := 1 / m.m11, m12 := -(m.m12 / m.m11), m13 := -(m.m13 / m.m11), m21 := 0, m22 := 1, m23 := 0, m31 := 0, m32 := 0, m33 := 1 }).m22, m23 := -((m * { m11 := 1 / m.m11, m12 := -(m.m12 / m.m11), m13 := -(m.m13 / m.m11), m21 := 0, m22 := 1, m23 := 0, m31 := 0, m32 := 0, m33 := 1 }).m23 / (m * { m11 := 1 / m.m11, m12 := -(m.m12 / m.m11), m13 := -(m.m13 / m.m11), m21 := 0, m22 := 1, m23 := 0, m31 := 0, m32 := 0, m33 := 1 }).m22), m31 := 0, m32 := 0, m33 := 1 }).m21 = 0 := by
    rw [show ((m * { m11 := 1 / m.m11, m12 := -(m.m12 / m.m11), m13 := -(m.m13 / m.m11), m21 := 0, m22 := 1, m23 := 0, m31 := 0, m32 := 0, m33 := 1 }) * { m11 := 1, m12 := 0, m13 := 0, m21 := -((m * { m11 := 1 / m.m11, m12 := -(m.m12 / m.m11), m13 := -(m.m13 / m.m11), m21 := 0, m22 := 1, m23 := 0, m31 := 0, m32 := 0, m33 := 1 }).m21 / (m * { m11 := 1 / m.m11, m12 := -(m.m12 / m.m11), m13 := -(m.m13 / m.m11), m21 := 0, m22 := 1, m23 := 0, m31 := 0, m32 := 0, m33 := 1 }).m22), m22 := 1 / (m * { m11 := 1 / m.m11, m12 := -(m.m12 / m.m11), m13 := -(m.m13 / m.m11), m21 := 0, m22 := 1, m23 := 0, m31 := 0, m32 := 0, m33 := 1 }).m22, m23 := -((m * { m11 := 1 / m.m11, m12 := -(m.m12 / m.m11), m13 := -(m.m13 / m.m11), m21 := 0, m22 := 1, m23 := 0, m31 := 0, m32 := 0, m33 := 1 }).m23 / (m * { m11 := 1 / m.m11, m12 := -(m.m12 / m.m11), m13 := -(m.m13 / m.m11), m21 := 0, m22 := 1, m23 := 0, m31 := 0, m32 := 0, m33 := 1 }).m22), m31 := 0, m32 := 0, m33 := 1 }).m21 =
        (shear_y_from_entries (m * { m11 := 1 / m.m11, m12 := -(m.m12 / m.m11), m13 := -(m.m13 / m.m11), m21 := 0, m22 := 1, m23 := 0, m31 := 0, m32 := 0, m33 := 1 }).m21 (m * { m11 := 1 / m.m11, m12 := -(m.m12 / m.m11), m13 := -(m.m13 / m.m11), m21 := 0, m22 := 1, m23 := 0, m31 := 0, m32 := 0, m33 := 1 }).m22 (m * { m11 := 1 / m.m11, m12 := -(m.m12 / m.m11), m13 := -(m.m13 / m.m11), m21 := 0, m22 := 1, m23 := 0, m31 := 0, m32 := 0, m33 := 1 }).m23 * { m11 := 1, m12 := 0, m13 := 0, m21 := -((m * { m11 := 1 / m.m11, m12 := -(m.m12 / m.m11), m13 := -(m.m13 / m.m11), m21 := 0, m22 := 1, m23 := 0, m31 := 0, m32 := 0, m33 := 1 }).m21 / (m * { m11 := 1 / m.m11, m12 := -(m.m12 / m.m11), m13 := -(m.m13 / m.m11), m21 := 0, m22 := 1, m23 := 0, m31 := 0, m32 := 0, m33 := 1 }).m22), m22 := 1 / (m * { m11 := 1 / m.m11, m12 := -(m.m12 / m.m11), m13 := -(m.m13 / m.m11), m21 := 0, m22 := 1, m23 := 0, m31 := 0, m32 := 0, m33 := 1 }).m22, m23 := -((m * { m11 := 1 / m.m11, m12 := -(m.m12 / m.m11), m13 := -(m.m13 / m.m11), m21 := 0, m22 := 1, m23 := 0, m31 := 0, m32 := 0, m33 := 1 }).m23 / (m * { m11 := 1 / m.m11, m12 := -(m.m12 / m.m11), m13 := -(m.m13 / m.m11), m21 := 0, m22 := 1, m23 := 0, m31 := 0, m32 := 0, m33 := 1 }).m22), m31 := 0, m32 := 0, m33 := 1 }).m21 from rfl,
      shear_y_mul_inv (m * { m11 := 1 / m.m11, m12 := -(m.m12 / m.m11), m13 := -(m.m13 / m.m11), m21 := 0, m22 := 1, m23 := 0, m31 := 0, m32 := 0, m33 := 1 }).m21 (m * { m11 := 1 / m.m11, m12 := -(m.m12 / m.m11), m13 := -(m.m13 / m.m11), m21 := 0, m22 := 1, m23 := 0, m31 := 0, m32 := 0, m33 := 1 }).m22 (m * { m11 := 1 / m.m11, m12 := -(m.m12 / m.m11), m13 := -(m.m13 / m.m11), m21 := 0, m22 := 1, m23 := 0, m31 := 0, m32 := 0, m33 := 1 }).m23 h2]
    rfl
  have f22 : ((m * { m11 := 1 / m.m11, m12 := -(m.m12 / m.m11), m13 := -(m.m13 / m.m11), m21 := 0, m22 := 1, m23 := 0, m31 := 0, m32 := 0, m33 := 1 }) * { m11 := 1, m12 := 0, m13 := 0, m21 := -((m * { m11 := 1 / m.m11, m12 := -(m.m12 / m.m11), m13 := -(m.m13 / m.m11), m21 := 0, m22 := 1, m23 := 0, m31 := 0, m32 := 0, m33 := 1 }).m21 / (m * { m11 := 1 / m.m11, m12 := -(m.m12 / m.m11), m13 := -(m.m13 / m.m11), m21 := 0, m22 := 1, m23 := 0, m31 := 0, m32 := 0, m33 := 1 }).m22), m22 := 1 / (m * { m11 := 1 / m.m11, m12 := -(m.m12 / m.m11), m13 := -(m.m13 / m.m11), m21 := 0, m22 := 1, m23 := 0, m31 := 0, m32 := 0, m33 := 1 }).m22, m23 := -((m * { m11 := 1 / m.m11, m12 := -(m.m12 / m.m11), m13 := -(m.m13 / m.m11), m21 := 0, m22 := 1, m23 := 0, m31 := 0, m32 := 0, m33 := 1 }).m23 / (m * { m11 := 1 / m.m11, m12 := -(m.m12 / m.m11), m13 := -(m.m13 / m.m11), m21 := 0, m22 := 1, m23 := 0, m31 := 0, m32 := 0, m33 := 1 }).m22), m31 := 0, m32 := 0, m33 := 1 }).m22 = 1 := by
    rw [show ((m * { m11 := 1 / m.m11, m12 := -(m.m12 / m.m11), m13 := -(m.m13 / m.m11), m21 := 0, m22 := 1, m23 := 0, m31 := 0, m32 := 0, m33 := 1 }) * { m11 := 1, m12 := 0, m13 := 0, m21 := -((m * { m11 := 1 / m.m11, m12 := -(m.m12 / m.m11), m13 := -(m.m13 / m.m11), m21 := 0, m22 := 1, m23 := 0, m31 := 0, m32 := 0, m33 := 1 }).m21 / (m * { m11 := 1 / m.m11, m12 := -(m.m12 / m.m11), m13 := -(m.m13 / m.m11), m21 := 0, m22 := 1, m23 := 0, m31 := 0, m32 := 0, m33 := 1 }).m22), m22 := 1 / (m * { m11 := 1 / m.m11, m12 := -(m.m12 / m.m11), m13 := -(m.m13 / m.m11), m21 := 0, m22 := 1, m23 := 0, m31 := 0, m32 := 0, m33 := 1 }).m22, m23 := -((m * { m11 := 1 / m.m11, m12 := -(m.m12 / m.m11), m13 := -(m.m13 / m.m11), m21 := 0, m22 := 1, m23 := 0, m31 := 0, m32 := 0, m33 := 1 }).m23 / (m * { m11 := 1 / m.m11, m12 := -(m.m12 / m.m11), m13 := -(m.m13 / m.m11), m21 := 0, m22 := 1, m23 := 0, m31 := 0, m32 := 0, m33 := 1 }).m22), m31 := 0, m32 := 0, m33 := 1 }).m22 =
        (shear_y_from_entries (m * { m11 := 1 / m.m11, m12 := -(m.m12 / m.m11), m13 := -(m.m13 / m.m11), m21 := 0, m22 := 1, m23 := 0, m31 := 0, m32 := 0, m33 := 1 }).m21 (m * { m11 := 1 / m.m11, m12 := -(m.m12 / m.m11), m13 := -(m.m13 / m.m11), m21 := 0, m22 := 1, m23 := 0, m31 := 0, m32 := 0, m33 := 1 }).m22 (m * { m11 := 1 / m.m11, m12 := -(m.m12 / m.m11), m13 := -(m.m13 / m.m11), m21 := 0, m22 := 1, m23 := 0, m31 := 0, m32 := 0, m33 := 1 }).m23 * { m11 := 1, m12 := 0, m13 := 0, m21 := -((m * { m11 := 1 / m.m11, m12 := -(m.m12 / m.m11), m13 := -(m.m13 / m.m11), m21 := 0, m22 := 1, m23 := 0, m31 := 0, m32 := 0, m33 := 1 }).m21 / (m * { m11 := 1 / m.m11, m12 := -(m.m12 / m.m11), m13 := -(m.m13 / m.m11), m21 := 0, m22 := 1, m23 := 0, m31 := 0, m32 := 0, m33 := 1 }).m22), m22 := 1 / (m * { m11 := 1 / m.m11, m12 := -(m.m12 / m.m11), m13 := -(m.m13 / m.m11), m21 := 0, m22 := 1, m23 := 0, m31 := 0, m32 := 0, m33 := 1 }).m22, m23 := -((m * { m11 := 1 / m.m11, m12 := -(m.m12 / m.m11), m13 := -(m.m13 / m.m11), m21 := 0, m22 := 1, m23 := 0, m31 := 0, m32 := 0, m33 := 1 }).m23 / (m * { m11 := 1 / m.m11, m12 := -(m.m12 / m.m11), m13 := -(m.m13 / m.m11), m21 := 0, m22 := 1, m23 := 0, m31 := 0, m32 := 0, m33 := 1 }).m22), m31 := 0, m32 := 0, m33 := 1 }).m22 from rfl,
      shear_y_mul_inv (m * { m11 := 1 / m.m11, m12 := -(m.m12 / m.m11), m13 := -(m.m13 / m.m11), m21 := 0, m22 := 1, m23 := 0, m31 := 0, m32 := 0, m33 := 1 }).m21 (m * { m11 := 1 / m.m11, m12 := -(m.m12 / m.m11), m13 := -(m.m13 / m.m11), m21 := 0, m22 := 1, m23 := 0, m31 := 0, m32 := 0, m33 := 1 }).m22 (m * { m11 := 1 / m.m11, m12 := -(m.m12 / m.m11), m13 := -(m.m13 / m.m11), m21 := 0, m22 := 1, m23 := 0, m31 := 0, m32 := 0, m33 := 1 }).m23 h2]
    rfl
  have f23 : ((m * { m11 := 1 / m.m11, m12 := -(m.m12 / m.m11), m13 := -(m.m13 / m.m11), m21 := 0, m22 := 1, m23 := 0, m31 := 0, m32 := 0, m33 := 1 }) * { m11 := 1, m12 := 0, m13 := 0, m21 := -((m * { m11 := 1 / m.m11, m12 := -(m.m12 / m.m11), m13 := -(m.m13 / m.m11), m21 := 0, m22 := 1, m23 := 0, m31 := 0, m32 := 0, m33 := 1 }).m21 / (m * { m11 := 1 / m.m11, m12 := -(m.m12 / m.m11), m13 := -(m.m13 / m.m11), m21 := 0, m22 := 1, m23 := 0, m31 := 0, m32 := 0, m33 := 1 }).m22), m22 := 1 / (m * { m11 := 1 / m.m11, m12 := -(m.m12 / m.m11), m13 := -(m.m13 / m.m11), m21 := 0, m22 := 1, m23 := 0, m31 := 0, m32 := 0, m33 := 1 }).m22, m23 := -((m * { m11 := 1 / m.m11, m12 := -(m.m12 / m.m11), m13 := -(m.m13 / m.m11), m21 := 0, m22 := 1, m23 := 0, m31 := 0, m32 := 0, m33 := 1 }).m23 / (m * { m11 := 1 / m.m11, m12 := -(m.m12 / m.m11), m13 := -(m.m13 / m.m11), m21 := 0, m22 := 1, m23 := 0, m31 := 0, m32 := 0, m33 := 1 }).m22), m31 := 0, m32 := 0, m33 := 1 }).m23 = 0 := by
    rw [show ((m * { m11 := 1 / m.m11, m12 := -(m.m12 / m.m11), m13 := -(m.m13 / m.m11), m21 := 0, m22 := 1, m23 := 0, m31 := 0, m32 := 0, m33 := 1 }) * { m11 := 1, m12 := 0, m13 := 0, m21 := -((m * { m11 := 1 / m.m11, m12 := -(m.m12 / m.m11), m13 := -(m.m13 / m.m11), m21 := 0, m22 := 1, m23 := 0, m31 := 0, m32 := 0, m33 := 1 }).m21 / (m * { m11 := 1 / m.m11, m12 := -(m.m12 / m.m11), m13 := -(m.m13 / m.m11), m21 := 0, m22 := 1, m23 := 0, m31 := 0, m32 := 0, m33 := 1 }).m22), m22 := 1 / (m * { m11 := 1 / m.m11, m12 := -(m.m12 / m.m11), m13 := -(m.m13 / m.m11), m21 := 0, m22 := 1, m23 := 0, m31 := 0, m32 := 0, m33 := 1 }).m22, m23 := -((m * { m11 := 1 / m.m11, m12 := -(m.m12 / m.m11), m13 := -(m.m13 / m.m11), m21 := 0, m22 := 1, m23 := 0, m31 := 0, m32 := 0, m33 := 1 }).m23 / (m * { m11 := 1 / m.m11, m12 := -(m.m12 / m.m11), m13 := -(m.m13 / m.m11), m21 := 0, m22 := 1, m23 := 0, m31 := 0, m32 := 0, m33 := 1 }).m22), m31 := 0, m32 := 0, m33 := 1 }).m23 =
        (shear_y_from_entries (m * { m11 := 1 / m.m11, m12 := -(m.m12 / m.m11), m13 := -(m.m13 / m.m11), m21 := 0, m22 := 1, m23 := 0, m31 := 0, m32 := 0, m33 := 1 }).m21 (m * { m11 := 1 / m.m11, m12 := -(m.m12 / m.m11), m13 := -(m.m13 / m.m11), m21 := 0, m22 := 1, m23 := 0, m31 := 0, m32 := 0, m33 := 1 }).m22 (m * { m11 := 1 / m.m11, m12 := -(m.m12 / m.m11), m13 := -(m.m13 / m.m11), m21 := 0, m22 := 1, m23 := 0, m31 := 0, m32 := 0, m33 := 1 }).m23 * { m11 := 1, m12 := 0, m13 := 0, m21 := -((m * { m11 := 1 / m.m11, m12 := -(m.m12 / m.m11), m13 := -(m.m13 / m.m11), m21 := 0, m22 := 1, m23 := 0, m31 := 0, m32 := 0, m33 := 1 }).m21 / (m * { m11 := 1 / m.m11, m12 := -(m.m12 / m.m11), m13 := -(m.m13 / m.m11), m21 := 0, m22 := 1, m23 := 0, m31 := 0, m32 := 0, m33 := 1 }).m22), m22 := 1 / (m * { m11 := 1 / m.m11, m12 := -(m.m12 / m.m11), m13 := -(m.m13 / m.m11), m21 := 0, m22 := 1, m23 := 0, m31 := 0, m32 := 0, m33 := 1 }).m22, m23 := -((m * { m11 := 1 / m.m11, m12 := -(m.m12 / m.m11), m13 := -(m.m13 / m.m11), m21 := 0, m22 := 1, m23 := 0, m31 := 0, m32 := 0, m33 := 1 }).m23 / (m * { m11 := 1 / m.m11, m12 := -(m.m12 / m.m11), m13 := -(m.m13 / m.m11), m21 := 0, m22 := 1, m23 := 0, m31 := 0, m32 := 0, m33 := 1 }).m22), m31 := 0, m32 := 0, m33 := 1 }).m23 from rfl,
      shear_y_mul_inv (m * { m11 := 1 / m.m11, m12 := -(m.m12 / m.m11), m13 := -(m.m13 / m.m11), m21 := 0, m22 := 1, m23 := 0, m31 := 0, m32 := 0, m33 := 1 }).m21 (m * { m11 := 1 / m.m11, m12 := -(m.m12 / m.m11), m13 := -(m.m13 / m.m11), m21 := 0, m22 := 1, m23 := 0, m31 := 0, m32 := 0, m33 := 1 }).m22 (m * { m11 := 1 / m.m11, m12 := -(m.m12 / m.m11), m13 := -(m.m13 / m.m11), m21 := 0, m22 := 1, m23 := 0, m31 := 0, m32 := 0, m33 := 1 }).m23 h2]
    rfl
  have g11 : ((m * { m11 := 1 / m.m11, m12 := -(m.m12 / m.m11), m13 := -(m.m13 / m.m11), m21 := 0, m22 := 1, m23 := 0, m31 := 0, m32 := 0, m33 := 1 }) * { m11 := 1, m12 := 0, m13 := 0, m21 := -((m * { m11 := 1 / m.m11, m12 := -(m.m12 / m.m11), m13 := -(m.m13 / m.m11), m21 := 0, m22 := 1, m23 := 0, m31 := 0, m32 := 0, m33 := 1 }).m21 / (m * { m11 := 1 / m.m11, m12 := -(m.m12 / m.m11), m13 := -(m.m13 / m.m11), m21 := 0, m22 := 1, m23 := 0, m31 := 0, m32 := 0, m33 := 1 }).m22), m22 := 1 / (m * { m11 := 1 / m.m11, m12 := -(m.m12 / m.m11), m13 := -(m.m13 / m.m11), m21 := 0, m22 := 1, m23 := 0, m31 := 0, m32 := 0, m33 := 1 }).m22, m23 := -((m * { m11 := 1 / m.m11, m12 := -(m.m12 / m.m11), m13 := -(m.m13 / m.m11), m21 := 0, m22 := 1, m23 := 0, m31 := 0, m32 := 0, m33 := 1 }).m23 / (m * { m11 := 1 / m.m11, m12 := -(m.m12 / m.m11), m13 := -(m.m13 / m.m11), m21 := 0, m22 := 1, m23 := 0, m31 := 0, m32 := 0, m33 := 1 }).m22), m31 := 0, m32 := 0, m33 := 1 }).m11 = 1 := by
    rw [show ((m * { m11 := 1 / m.m11, m12 := -(m.m12 / m.m11), m13 := -(m.m13 / m.m11), m21 := 0, m22 := 1, m23 := 0, m31 := 0, m32 := 0, m33 := 1 }) * { m11 := 1, m12 := 0, m13 := 0, m21 := -((m * { m11 := 1 / m.m11, m12 := -(m.m12 / m.m11), m13 := -(m.m13 / m.m11), m21 := 0, m22 := 1, m23 := 0, m31 := 0, m32 := 0, m33 := 1 }).m21 / (m * { m11 := 1 / m.m11, m12 := -(m.m12 / m.m11), m13 := -(m.m13 / m.m11), m21 := 0, m22 := 1, m23 := 0, m31 := 0, m32 := 0, m33 := 1 }).m22), m22 := 1 / (m * { m11 := 1 / m.m11, m12 := -(m.m12 / m.m11), m13 := -(m.m13 / m.m11), m21 := 0, m22 := 1, m23 := 0, m31 := 0, m32 := 0, m33 := 1 }).m22, m23 := -((m * { m11 := 1 / m.m11, m12 := -(m.m12 / m.m11), m13 := -(m.m13 / m.m11), m21 := 0, m22 := 1, m23 := 0, m31 := 0, m32 := 0, m33 := 1 }).m23 / (m * { m11 := 1 / m.m11, m12 := -(m.m12 / m.m11), m13 := -(m.m13 / m.m11), m21 := 0, m22 := 1, m23 := 0, m31 := 0, m32 := 0, m33 := 1 }).m22), m31 := 0, m32 := 0, m33 := 1 }).m11 =
        (m * { m11 := 1 / m.m11, m12 := -(m.m12 / m.m11), m13 := -(m.m13 / m.m11), m21 := 0, m22 := 1, m23 := 0, m31 := 0, m32 := 0, m33 := 1 }).m11 * 1 + (m * { m11 := 1 / m.m11, m12 := -(m.m12 / m.m11), m13 := -(m.m13 / m.m11), m21 := 0, m22 := 1, m23 := 0, m31 := 0, m32 := 0, m33 := 1 }).m12 * -((m * { m11 := 1 / m.m11, m12 := -(m.m12 / m.m11), m13 := -(m.m13 / m.m11), m21 := 0, m22 := 1, m23 := 0, m31 := 0, m32 := 0, m33 := 1 }).m21 / (m * { m11 := 1 / m.m11, m12 := -(m.m12 / m.m11), m13 := -(m.m13 / m.m11), m21 := 0, m22 := 1, m23 := 0, m31 := 0, m32 := 0, m33 := 1 }).m22) + (m * { m11 := 1 / m.m11, m12 := -(m.m12 / m.m11), m13 := -(m.m13 / m.m11), m21 := 0, m22 := 1, m23 := 0, m31 := 0, m32 := 0, m33 := 1 }).m13 * 0 from rfl,
      e11, e12, e13]
    ring
  have g12 : ((m * { m11 := 1 / m.m11, m12 := -(m.m12 / m.m11), m13 := -(m.m13 / m.m11), m21 := 0, m22 := 1, m23 := 0, m31 := 0, m32 := 0, m33 := 1 }) * { m11 := 1, m12 := 0, m13 := 0, m21 := -((m * { m11 := 1 / m.m11, m12 := -(m.m12 / m.m11), m13 := -(m.m13 / m.m11), m21 := 0, m22 := 1, m23 := 0, m31 := 0, m32 := 0, m33 := 1 }).m21 / (m * { m11 := 1 / m.m11, m12 := -(m.m12 / m.m11), m13 := -(m.m13 / m.m11), m21 := 0, m22 := 1, m23 := 0, m31 := 0, m32 := 0, m33 := 1 }).m22), m22 := 1 / (m * { m11 := 1 / m.m11, m12 := -(m.m12 / m.m11), m13 := -(m.m13 / m.m11), m21 := 0, m22 := 1, m23 := 0, m31 := 0, m32 := 0, m33 := 1 }).m22, m23 := -((m * { m11 := 1 / m.m11, m12 := -(m.m12 / m.m11), m13 := -(m.m13 / m.m11), m21 := 0, m22 := 1, m23 := 0, m31 := 0, m32 := 0, m33 := 1 }).m23 / (m * { m11 := 1 / m.m11, m12 := -(m.m12 / m.m11), m13 := -(m.m13 / m.m11), m21 := 0, m22 := 1, m23 := 0, m31 := 0, m32 := 0, m33 := 1 }).m22), m31 := 0, m32 := 0, m33 := 1 }).m12 = 0 := by
    rw [show ((m * { m11 := 1 / m.m11, m12 := -(m.m12 / m.m11), m13 := -(m.m13 / m.m11), m21 := 0, m22 := 1, m23 := 0, m31 := 0, m32 := 0, m33 := 1 }) * { m11 := 1, m12 := 0, m13 := 0, m21 := -((m * { m11 := 1 / m.m11, m12 := -(m.m12 / m.m11), m13 := -(m.m13 / m.m11), m21 := 0, m22 := 1, m23 := 0, m31 := 0, m32 := 0, m33 := 1 }).m21 / (m * { m11 := 1 / m.m11, m12 := -(m.m12 / m.m11), m13 := -(m.m13 / m.m11), m21 := 0, m22 := 1, m23 := 0, m31 := 0, m32 := 0, m33 := 1 }).m22), m22 := 1 / (m * { m11 := 1 / m.m11, m12 := -(m.m12 / m.m11), m13 := -(m.m13 / m.m11), m21 := 0, m22 := 1, m23 := 0, m31 := 0, m32 := 0, m33 := 1 }).m22, m23 := -((m * { m11 := 1 / m.m11, m12 := -(m.m12 / m.m11), m13 := -(m.m13 / m.m11), m21 := 0, m22 := 1, m23 := 0, m31 := 0, m32 := 0, m33 := 1 }).m23 / (m * { m11 := 1 / m.m11, m12 := -(m.m12 / m.m11), m13 := -(m.m13 / m.m11), m21 := 0, m22 := 1, m23 := 0, m31 := 0, m32 := 0, m33 := 1 }).m22), m31 := 0, m32 := 0, m33 := 1 }).m12 =
        (m * { m11 := 1 / m.m11, m12 := -(m.m12 / m.m11), m13 := -(m.m13 / m.m11), m21 := 0, m22 := 1, m23 := 0, m31 := 0, m32 := 0, m33 := 1 }).m11 * 0 + (m * { m11 := 1 / m.m11, m12 := -(m.m12 / m.m11), m13 := -(m.m13 / m.m11), m21 := 0, m22 := 1, m23 := 0, m31 := 0, m32 := 0, m33 := 1 }).m12 * (1 / (m * { m11 := 1 / m.m11, m12 := -(m.m12 / m.m11), m13 := -(m.m13 / m.m11), m21 := 0, m22 := 1, m23 := 0, m31 := 0, m32 := 0, m33 := 1 }).m22) + (m * { m11 := 1 / m.m11, m12 := -(m.m12 / m.m11), m13 := -(m.m13 / m.m11), m21 := 0, m22 := 1, m23 := 0, m31 := 0, m32 := 0, m33 := 1 }).m13 * 0 from rfl,
      e12]
    ring
  have g13 : ((m * { m11 := 1 / m.m11, m12 := -(m.m12 / m.m11), m13 := -(m.m13 / m.m11), m21 := 0, m22 := 1, m23 := 0, m31 := 0, m32 := 0, m33 := 1 }) * { m11 := 1, m12 := 0, m13 := 0, m21 := -((m * { m11 := 1 / m.m11, m12 := -(m.m12 / m.m11), m13 := -(m.m13 / m.m11), m21 := 0, m22 := 1, m23 := 0, m31 := 0, m32 := 0, m33 := 1 }).m21 / (m * { m11 := 1 / m.m11, m12 := -(m.m12 / m.m11), m13 := -(m.m13 / m.m11), m21 := 0, m22 := 1, m23 := 0, m31 := 0, m32 := 0, m33 := 1 }).m22), m22 := 1 / (m * { m11 := 1 / m.m11, m12 := -(m.m12 / m.m11), m13 := -(m.m13 / m.m11), m21 := 0, m22 := 1, m23 := 0, m31 := 0, m32 := 0, m33 := 1 }).m22, m23 := -((m * { m11 := 1 / m.m11, m12 := -(m.m12 / m.m11), m13 := -(m.m13 / m.m11), m21 := 0, m22 := 1, m23 := 0, m31 := 0, m32 := 0, m33 := 1 }).m23 / (m * { m11 := 1 / m.m11, m12 := -(m.m12 / m.m11), m13 := -(m.m13 / m.m11), m21 := 0, m22 := 1, m23 := 0, m31 := 0, m32 := 0, m33 := 1 }).m22), m31 := 0, m32 := 0, m33 := 1 }).m13 = 0 := by
    rw [show ((m * { m11 := 1 / m.m11, m12 := -(m.m12 / m.m11), m13 := -(m.m13 / m.m11), m21 := 0, m22 := 1, m23 := 0, m31 := 0, m32 := 0, m33 := 1 }) * { m11 := 1, m12 := 0, m13 := 0, m21 := -((m * { m11 := 1 / m.m11, m12 := -(m.m12 / m.m11), m13 := -(m.m13 / m.m11), m21 := 0, m22 := 1, m23 := 0, m31 := 0, m32 := 0, m33 := 1 }).m21 / (m * { m11 := 1 / m.m11, m12 := -(m.m12 / m.m11), m13 := -(m.m13 / m.m11), m21 := 0, m22 := 1, m23 := 0, m31 := 0, m32 := 0, m33 := 1 }).m22), m22 := 1 / (m * { m11 := 1 / m.m11, m12 := -(m.m12 / m.m11), m13 := -(m.m13 / m.m11), m21 := 0, m22 := 1, m23 := 0, m31 := 0, m32 := 0, m33 := 1 }).m22, m23 := -((m * { m11 := 1 / m.m11, m12 := -(m.m12 / m.m11), m13 := -(m.m13 / m.m11), m21 := 0, m22 := 1, m23 := 0, m31 := 0, m32 := 0, m33 := 1 }).m23 / (m * { m11 := 1 / m.m11, m12 := -(m.m12 / m.m11), m13 := -(m.m13 / m.m11), m21 := 0, m22 := 1, m23 := 0, m31 := 0, m32 := 0, m33 := 1 }).m22), m31 := 0, m32 := 0, m33 := 1 }).m13 =
        (m * { m11 := 1 / m.m11, m12 := -(m.m12 / m.m11), m13 := -(m.m13 / m.m11), m21 := 0, m22 := 1, m23 := 0, m31 := 0, m32 := 0, m33 := 1 }).m11 * 0 + (m * { m11 := 1 / m.m11, m12 := -(m.m12 / m.m11), m13 := -(m.m13 / m.m11), m21 := 0, m22 := 1, m23 := 0, m31 := 0, m32 := 0, m33 := 1 }).m12 * -((m * { m11 := 1 / m.m11, m12 := -(m.m12 / m.m11), m13 := -(m.m13 / m.m11), m21 := 0, m22 := 1, m23 := 0, m31 := 0, m32 := 0, m33 := 1 }).m23 / (m * { m11 := 1 / m.m11, m12 := -(m.m12 / m.m11), m13 := -(m.m13 / m.m11), m21 := 0, m22 := 1, m23 := 0, m31 := 0, m32 := 0, m33 := 1 }).m22) + (m * { m11 := 1 / m.m11, m12 := -(m.m12 / m.m11), m13 := -(m.m13 / m.m11), m21 := 0, m22 := 1, m23 := 0, m31 := 0, m32 := 0, m33 := 1 }).m13 * 1 from rfl,
      e12, e13]
    ring
  have hz : ((m * { m11 := 1 / m.m11, m12 := -(m.m12 / m.m11), m13 := -(m.m13 / m.m11), m21 := 0, m22 := 1, m23 := 0, m31 := 0, m32 := 0, m33 := 1 }) * { m11 := 1, m12 := 0, m13 := 0, m21 := -((m * { m11 := 1 / m.m11, m12 := -(m.m12 / m.m11), m13 := -(m.m13 / m.m11), m21 := 0, m22 := 1, m23 := 0, m31 := 0, m32 := 0, m33 := 1 }).m21 / (m * { m11 := 1 / m.m11, m12 := -(m.m12 / m.m11), m13 := -(m.m13 / m.m11), m21 := 0, m22 := 1, m23 := 0, m31 := 0, m32 := 0, m33 := 1 }).m22), m22 := 1 / (m * { m11 := 1 / m.m11, m12 := -(m.m12 / m.m11), m13 := -(m.m13 / m.m11), m21 := 0, m22 := 1, m23 := 0, m31 := 0, m32 := 0, m33 := 1 }).m22, m23 := -((m * { m11 := 1 / m.m11, m12 := -(m.m12 / m.m11), m13 := -(m.m13 / m.m11), m21 := 0, m22 := 1, m23 := 0, m31 := 0, m32 := 0, m33 := 1 }).m23 / (m * { m11 := 1 / m.m11, m12 := -(m.m12 / m.m11), m13 := -(m.m13 / m.m11), m21 := 0, m22 := 1, m23 := 0, m31 := 0, m32 := 0, m33 := 1 }).m22), m31 := 0, m32 := 0, m33 := 1 }) = shear_z_from_entries ((m * { m11 := 1 / m.m11, m12 := -(m.m12 / m.m11), m13 := -(m.m13 / m.m11), m21 := 0, m22 := 1, m23 := 0, m31 := 0, m32 := 0, m33 := 1 }) * { m11 := 1, m12 := 0, m13 := 0, m21 := -((m * { m11 := 1 / m.m11, m12 := -(m.m12 / m.m11), m13 := -(m.m13 / m.m11), m21 := 0, m22 := 1, m23 := 0, m31 := 0, m32 := 0, m33 := 1 }).m21 / (m * { m11 := 1 / m.m11, m12 := -(m.m12 / m.m11), m13 := -(m.m13 / m.m11), m21 := 0, m22 := 1, m23 := 0, m31 := 0, m32 := 0, m33 := 1 }).m22), m22 := 1 / (m * { m11 := 1 / m.m11, m12 := -(m.m12 / m.m11), m13 := -(m.m13 / m.m11), m21 := 0, m22 := 1, m23 := 0, m31 := 0, m32 := 0, m33 := 1 }).m22, m23 := -((m * { m11 := 1 / m.m11, m12 := -(m.m12 / m.m11), m13 := -(m.m13 / m.m11), m21 := 0, m22 := 1, m23 := 0, m31 := 0, m32 := 0, m33 := 1 }).m23 / (m * { m11 := 1 / m.m11, m12 := -(m.m12 / m.m11), m13 := -(m.m13 / m.m11), m21 := 0, m22 := 1, m23 := 0, m31 := 0, m32 := 0, m33 := 1 }).m22), m31 := 0, m32 := 0, m33 := 1 }).m31 ((m * { m11 := 1 / m.m11, m12 := -(m.m12 / m.m11), m13 := -(m.m13 / m.m11), m21 := 0, m22 := 1, m23 := 0, m31 := 0, m32 := 0, m33 := 1 }) * { m11 := 1, m12 := 0, m13 := 0, m21 := -((m * { m11 := 1 / m.m11, m12 := -(m.m12 / m.m11), m13 := -(m.m13 / m.m11), m21 := 0, m22 := 1, m23 := 0, m31 := 0, m32 := 0, m33 := 1 }).m21 / (m * { m11 := 1 / m.m11, m12 := -(m.m12 / m.m11), m13 := -(m.m13 / m.m11), m21 := 0, m22 := 1, m23 := 0, m31 := 0, m32 := 0, m33 := 1 }).m22), m22 := 1 / (m * { m11 := 1 / m.m11, m12 := -(m.m12 / m.m11), m13 := -(m.m13 / m.m11), m21 := 0, m22 := 1, m23 := 0, m31 := 0, m32 := 0, m33 := 1 }).m22, m23 := -((m * { m11 := 1 / m.m11, m12 := -(m.m12 / m.m11), m13 := -(m.m13 / m.m11), m21 := 0, m22 := 1, m23 := 0, m31 := 0, m32 := 0, m33 := 1 }).m23 / (m * { m11 := 1 / m.m11, m12 := -(m.m12 / m.m11), m13 := -(m.m13 / m.m11), m21 := 0, m22 := 1, m23 := 0, m31 := 0, m32 := 0, m33 := 1 }).m22), m31 := 0, m32 := 0, m33 := 1 }).m32 ((m * { m11 := 1 / m.m11, m12 := -(m.m12 / m.m11), m13 := -(m.m13 / m.m11), m21 := 0, m22 := 1, m23 := 0, m31 := 0, m32 := 0, m33 := 1 }) * { m11 := 1, m12 := 0, m13 := 0, m21 := -((m * { m11 := 1 / m.m11, m12 := -(m.m12 / m.m11), m13 := -(m.m13 / m.m11), m21 := 0, m22 := 1, m23 := 0, m31 := 0, m32 := 0, m33 := 1 }).m21 / (m * { m11 := 1 / m.m11, m12 := -(m.m12 / m.m11), m13 := -(m.m13 / m.m11), m21 := 0, m22 := 1, m23 := 0, m31 := 0, m32 := 0, m33 := 1 }).m22), m22 := 1 / (m * { m11 := 1 / m.m11, m12 := -(m.m12 / m.m11), m13 := -(m.m13 / m.m11), m21 := 0, m22 := 1, m23 := 0, m31 := 0, m32 := 0, m33 := 1 }).m22, m23 := -((m * { m11 := 1 / m.m11, m12 := -(m.m12 / m.m11), m13 := -(m.m13 / m.m11), m21 := 0, m22 := 1, m23 := 0, m31 := 0, m32 := 0, m33 := 1 }).m23 / (m * { m11 := 1 / m.m11, m12 := -(m.m12 / m.m11), m13 := -(m.m13 / m.m11), m21 := 0, m22 := 1, m23 := 0, m31 := 0, m32 := 0, m33 := 1 }).m22), m31 := 0, m32 := 0, m33 := 1 }).m33 := by
    apply Matrix3.ext <;>
      simp only [shear_z_from_entries, g11, g12, g13, f21, f22, f23]
  refine ⟨⟨m.m11, m.m12, m.m13, (m * { m11 := 1 / m.m11, m12 := -(m.m12 / m.m11), m13 := -(m.m13 / m.m11), m21 := 0, m22 := 1, m23 := 0, m31 := 0, m32 := 0, m33 := 1 }).m21, (m * { m11 := 1 / m.m11, m12 := -(m.m12 / m.m11), m13 := -(m.m13 / m.m11), m21 := 0, m22 := 1, m23 := 0, m31 := 0, m32 := 0, m33 := 1 }).m22, (m * { m11 := 1 / m.m11, m12 := -(m.m12 / m.m11), m13 := -(m.m13 / m.m11), m21 := 0, m22 := 1, m23 := 0, m31 := 0, m32 := 0, m33 := 1 }).m23,
    ((m * { m11 := 1 / m.m11, m12 := -(m.m12 / m.m11), m13 := -(m.m13 / m.m11), m21 := 0, m22 := 1, m23 := 0, m31 := 0, m32 := 0, m33 := 1 }) * { m11 := 1, m12 := 0, m13 := 0, m21 := -((m * { m11 := 1 / m.m11, m12 := -(m.m12 / m.m11), m13 := -(m.m13 / m.m11), m21 := 0, m22 := 1, m23 := 0, m31 := 0, m32 := 0, m33 := 1 }).m21 / (m * { m11 := 1 / m.m11, m12 := -(m.m12 / m.m11), m13 := -(m.m13 / m.m11), m21 := 0, m22 := 1, m23 := 0, m31 := 0, m32 := 0, m33 := 1 }).m22), m22 := 1 / (m * { m11 := 1 / m.m11, m12 := -(m.m12 / m.m11), m13 := -(m.m13 / m.m11), m21 := 0, m22 := 1, m23 := 0, m31 := 0, m32 := 0, m33 := 1 }).m22, m23 := -((m * { m11 := 1 / m.m11, m12 := -(m.m12 / m.m11), m13 := -(m.m13 / m.m11), m21 := 0, m22 := 1, m23 := 0, m31 := 0, m32 := 0, m33 := 1 }).m23 / (m * { m11 := 1 / m.m11, m12 := -(m.m12 / m.m11), m13 := -(m.m13 / m.m11), m21 := 0, m22 := 1, m23 := 0, m31 := 0, m32 := 0, m33 := 1 }).m22), m31 := 0, m32 := 0, m33 := 1 }).m31, ((m * { m11 := 1 / m.m11, m12 := -(m.m12 / m.m11), m13 := -(m.m13 / m.m11), m21 := 0, m22 := 1, m23 := 0, m31 := 0, m32 := 0, m33 := 1 }) * { m11 := 1, m12 := 0, m13 := 0, m21 := -((m * { m11 := 1 / m.m11, m12 := -(m.m12 / m.m11), m13 := -(m.m13 / m.m11), m21 := 0, m22 := 1, m23 := 0, m31 := 0, m32 := 0, m33 := 1 }).m21 / (m * { m11 := 1 / m.m11, m12 := -(m.m12 / m.m11), m13 := -(m.m13 / m.m11), m21 := 0, m22 := 1, m23 := 0, m31 := 0, m32 := 0, m33 := 1 }).m22), m22 := 1 / (m * { m11 := 1 / m.m11, m12 := -(m.m12 / m.m11), m13 := -(m.m13 / m.m11), m21 := 0, m22 := 1, m23 := 0, m31 := 0, m32 := 0, m33 := 1 }).m22, m23 := -((m * { m11 := 1 / m.m11, m12 := -(m.m12 / m.m11), m13 := -(m.m13 / m.m11), m21 := 0, m22 := 1, m23 := 0, m31 := 0, m32 := 0, m33 := 1 }).m23 / (m * { m11 := 1 / m.m11, m12 := -(m.m12 / m.m11), m13 := -(m.m13 / m.m11), m21 := 0, m22 := 1, m23 := 0, m31 := 0, m32 := 0, m33 := 1 }).m22), m31 := 0, m32 := 0, m33 := 1 }).m32, ((m * { m11 := 1 / m.m11, m12 := -(m.m12 / m.m11), m13 := -(m.m13 / m.m11), m21 := 0, m22 := 1, m23 := 0, m31 := 0, m32 := 0, m33 := 1 }) * { m11 := 1, m12 := 0, m13 := 0, m21 := -((m * { m11 := 1 / m.m11, m12 := -(m.m12 / m.m11), m13 := -(m.m13 / m.m11), m21 := 0, m22 := 1, m23 := 0, m31 := 0, m32 := 0, m33 := 1 }).m21 / (m * { m11 := 1 / m.m11, m12 := -(m.m12 / m.m11), m13 := -(m.m13 / m.m11), m21 := 0, m22 := 1, m23 := 0, m31 := 0, m32 := 0, m33 := 1 }).m22), m22 := 1 / (m * { m11 := 1 / m.m11, m12 := -(m.m12 / m.m11), m13 := -(m.m13 / m.m11), m21 := 0, m22 := 1, m23 := 0, m31 := 0, m32 := 0, m33 := 1 }).m22, m23 := -((m * { m11 := 1 / m.m11, m12 := -(m.m12 / m.m11), m13 := -(m.m13 / m.m11), m21 := 0, m22 := 1, m23 := 0, m31 := 0, m32 := 0, m33 := 1 }).m23 / (m * { m11 := 1 / m.m11, m12 := -(m.m12 / m.m11), m13 := -(m.m13 / m.m11), m21 := 0, m22 := 1, m23 := 0, m31 := 0, m32 := 0, m33 := 1 }).m22), m31 := 0, m32 := 0, m33 := 1 }).m33⟩, ?_, ?_, ?_⟩
  · simp only [PaethRotation3.new_from_matrix, hsx, Option.some_bind, hsy]
  · simp only [residual3, mLessX3, hsx, Option.map_some', Option.some_bind, hsy]
    exact congrArg some hz
  · show shear_z_from_entries ((m * { m11 := 1 / m.m11, m12 := -(m.m12 / m.m11), m13 := -(m.m13 / m.m11), m21 := 0, m22 := 1, m23 := 0, m31 := 0, m32 := 0, m33 := 1 }) * { m11 := 1, m12 := 0, m13 := 0, m21 := -((m * { m11 := 1 / m.m11, m12 := -(m.m12 / m.m11), m13 := -(m.m13 / m.m11), m21 := 0, m22 := 1, m23 := 0, m31 := 0, m32 := 0, m33 := 1 }).m21 / (m * { m11 := 1 / m.m11, m12 := -(m.m12 / m.m11), m13 := -(m.m13 / m.m11), m21 := 0, m22 := 1, m23 := 0, m31 := 0, m32 := 0, m33 := 1 }).m22), m22 := 1 / (m * { m11 := 1 / m.m11, m12 := -(m.m12 / m.m11), m13 := -(m.m13 / m.m11), m21 := 0, m22 := 1, m23 := 0, m31 := 0, m32 := 0, m33 := 1 }).m22, m23 := -((m * { m11 := 1 / m.m11, m12 := -(m.m12 / m.m11), m13 := -(m.m13 / m.m11), m21 := 0, m22 := 1, m23 := 0, m31 := 0, m32 := 0, m33 := 1 }).m23 / (m * { m11 := 1 / m.m11, m12 := -(m.m12 / m.m11), m13 := -(m.m13 / m.m11), m21 := 0, m22 := 1, m23 := 0, m31 := 0, m32 := 0, m33 := 1 }).m22), m31 := 0, m32 := 0, m33 := 1 }).m31 ((m * { m11 := 1 / m.m11, m12 := -(m.m12 / m.m11), m13 := -(m.m13 / m.m11), m21 := 0, m22 := 1, m23 := 0, m31 := 0, m32 := 0, m33 := 1 }) * { m11 := 1, m12 := 0, m13 := 0, m21 := -((m * { m11 := 1 / m.m11, m12 := -(m.m12 / m.m11), m13 := -(m.m13 / m.m11), m21 := 0, m22 := 1, m23 := 0, m31 := 0, m32 := 0, m33 := 1 }).m21 / (m * { m11 := 1 / m.m11, m12 := -(m.m12 / m.m11), m13 := -(m.m13 / m.m11), m21 := 0, m22 := 1, m23 := 0, m31 := 0, m32 := 0, m33 := 1 }).m22), m22 := 1 / (m * { m11 := 1 / m.m11, m12 := -(m.m12 / m.m11), m13 := -(m.m13 / m.m11), m21 := 0, m22 := 1, m23 := 0, m31 := 0, m32 := 0, m33 := 1 }).m22, m23 := -((m * { m11 := 1 / m.m11, m12 := -(m.m12 / m.m11), m13 := -(m.m13 / m.m11), m21 := 0, m22 := 1, m23 := 0, m31 := 0, m32 := 0, m33 := 1 }).m23 / (m * { m11 := 1 / m.m11, m12 := -(m.m12 / m.m11), m13 := -(m.m13 / m.m11), m21 := 0, m22 := 1, m23 := 0, m31 := 0, m32 := 0, m33 := 1 }).m22), m31 := 0, m32 := 0, m33 := 1 }).m32 ((m * { m11 := 1 / m.m11, m12 := -(m.m12 / m.m11), m13 := -(m.m13 / m.m11), m21 := 0, m22 := 1, m23 := 0, m31 := 0, m32 := 0, m33 := 1 }) * { m11 := 1, m12 := 0, m13 := 0, m21 := -((m * { m11 := 1 / m.m11, m12 := -(m.m12 / m.m11), m13 := -(m.m13 / m.m11), m21 := 0, m22 := 1, m23 := 0, m31 := 0, m32 := 0, m33 := 1 }).m21 / (m * { m11 := 1 / m.m11, m12 := -(m.m12 / m.m11), m13 := -(m.m13 / m.m11), m21 := 0, m22 := 1, m23 := 0, m31 := 0, m32 := 0, m33 := 1 }).m22), m22 := 1 / (m * { m11 := 1 / m.m11, m12 := -(m.m12 / m.m11), m13 := -(m.m13 / m.m11), m21 := 0, m22 := 1, m23 := 0, m31 := 0, m32 := 0, m33 := 1 }).m22, m23 := -((m * { m11 := 1 / m.m11, m12 := -(m.m12 / m.m11), m13 := -(m.m13 / m.m11), m21 := 0, m22 := 1, m23 := 0, m31 := 0, m32 := 0, m33 := 1 }).m23 / (m * { m11 := 1 / m.m11, m12 := -(m.m12 / m.m11), m13 := -(m.m13 / m.m11), m21 := 0, m22 := 1, m23 := 0, m31 := 0, m32 := 0, m33 := 1 }).m22), m31 := 0, m32 := 0, m33 := 1 }).m33 *
      shear_y_from_entries (m * { m11 := 1 / m.m11, m12 := -(m.m12 / m.m11), m13 := -(m.m13 / m.m11), m21 := 0, m22 := 1, m23 := 0, m31 := 0, m32 := 0, m33 := 1 }).m21 (m * { m11 := 1 / m.m11, m12 := -(m.m12 / m.m11), m13 := -(m.m13 / m.m11), m21 := 0, m22 := 1, m23 := 0, m31 := 0, m32 := 0, m33 := 1 }).m22 (m * { m11 := 1 / m.m11, m12 := -(m.m12 / m.m11), m13 := -(m.m13 / m.m11), m21 := 0, m22 := 1, m23 := 0, m31 := 0, m32 := 0, m33 := 1 }).m23 *
      shear_x_from_entries m.m11 m.m12 m.m13 = m
    rw [← hz, Matrix3.mul_assoc3 (m * { m11 := 1 / m.m11, m12 := -(m.m12 / m.m11), m13 := -(m.m13 / m.m11), m21 := 0, m22 := 1, m23 := 0, m31 := 0, m32 := 0, m33 := 1 }) { m11 := 1, m12 := 0, m13 := 0, m21 := -((m * { m11 := 1 / m.m11, m12 := -(m.m12 / m.m11), m13 := -(m.m13 / m.m11), m21 := 0, m22 := 1, m23 := 0, m31 := 0, m32 := 0, m33 := 1 }).m21 / (m * { m11 := 1 / m.m11, m12 := -(m.m12 / m.m11), m13 := -(m.m13 / m.m11), m21 := 0, m22 := 1, m23 := 0, m31 := 0, m32 := 0, m33 := 1 }).m22), m22 := 1 / (m * { m11 := 1 / m.m11, m12 := -(m.m12 / m.m11), m13 := -(m.m13 / m.m11), m21 := 0, m22 := 1, m23 := 0, m31 := 0, m32 := 0, m33 := 1 }).m22, m23 := -((m * { m11 := 1 / m.m11, m12 := -(m.m12 / m.m11), m13 := -(m.m13 / m.m11), m21 := 0, m22 := 1, m23 := 0, m31 := 0, m32 := 0, m33 := 1 }).m23 / (m * { m11 := 1 / m.m11, m12 := -(m.m12 / m.m11), m13 := -(m.m13 / m.m11), m21 := 0, m22 := 1, m23 := 0, m31 := 0, m32 := 0, m33 := 1 }).m22), m31 := 0, m32 := 0, m33 := 1 }
        (shear_y_from_entries (m * { m11 := 1 / m.m11, m12 := -(m.m12 / m.m11), m13 := -(m.m13 / m.m11), m21 := 0, m22 := 1, m23 := 0, m31 := 0, m32 := 0, m33 := 1 }).m21 (m * { m11 := 1 / m.m11, m12 := -(m.m12 / m.m11), m13 := -(m.m13 / m.m11), m21 := 0, m22 := 1, m23 := 0, m31 := 0, m32 := 0, m33 := 1 }).m22 (m * { m11 := 1 / m.m11, m12 := -(m.m12 / m.m11), m13 := -(m.m13 / m.m11), m21 := 0, m22 := 1, m23 := 0, m31 := 0, m32 := 0, m33 := 1 }).m23),
      shear_y_inv_mul (m * { m11 := 1 / m.m11, m12 := -(m.m12 / m.m11), m13 := -(m.m13 / m.m11), m21 := 0, m22 := 1, m23 := 0, m31 := 0, m32 := 0, m33 := 1 }).m21 (m * { m11 := 1 / m.m11, m12 := -(m.m12 / m.m11), m13 := -(m.m13 / m.m11), m21 := 0, m22 := 1, m23 := 0, m31 := 0, m32 := 0, m33 := 1 }).m22 (m * { m11 := 1 / m.m11, m12 := -(m.m12 / m.m11), m13 := -(m.m13 / m.m11), m21 := 0, m22 := 1, m23 := 0, m31 := 0, m32 := 0, m33 := 1 }).m23 h2, Matrix3.mul_one3,
      Matrix3.mul_assoc3 m { m11 := 1 / m.m11, m12 := -(m.m12 / m.m11), m13 := -(m.m13 / m.m11), m21 := 0, m22 := 1, m23 := 0, m31 := 0, m32 := 0, m33 := 1 } (shear_x_from_entries m.m11 m.m12 m.m13),
      shear_x_inv_mul m.m11 m.m12 m.m13 h1, Matrix3.mul_one3]

/-- C4: for every 3×3 matrix `m` with `m11 ≠ 0` whose derived pivot
`(m * Sx⁻¹).m22` is nonzero, the residual `m * Sx⁻¹ * Sy⁻¹` is itself a
z-shear matrix (identity except row 3), and the product
`shear_z() * shear_y() * shear_x()` of the three matrices produced by
`PaethRotation3::new_from_matrix` reproduces `m` exactly in exact
arithmetic. -/
theorem paeth3_residual_is_z_shear_and_reconstruct (m : Matrix3)
    (h1 : m.m11 ≠ 0) (m1 : Matrix3) (hm1 : mLessX3 m = some m1)
    (h2 : m1.m22 ≠ 0) :
    ∃ p, PaethRotation3.new_from_matrix m = some p ∧
      residual3 m = some (shear_z_from_entries p.zx p.zy p.zz) ∧
      p.shear_z * p.shear_y * p.shear_x = m :=
  reconstruct3_core m h1 m1 hm1 h2

theorem mLessX3_rot345 :
    mLessX3 ⟨3/5, -(4/5), 0, 4/5, 3/5, 0, 0, 0, 1⟩ =
      some ⟨1, 0, 0, 4/3, 5/3, 0, 0, 0, 1⟩ := by
  simp only [mLessX3]
  rw [inverse3_shear_x (3/5 : ℚ) (-(4/5) : ℚ) (0 : ℚ) (by norm_num)]
  simp only [Option.map_some', Option.some.injEq]
  norm_num [Matrix3.mul3_def, Matrix3.mk.injEq]

theorem new3_rot345 :
    PaethRotation3.new_from_matrix ⟨3/5, -(4/5), 0, 4/5, 3/5, 0, 0, 0, 1⟩ =
      some ⟨3/5, -(4/5), 0, 4/3, 5/3, 0, 0, 0, 1⟩ := by
  norm_num [PaethRotation3.new_from_matrix, inverse3, Matrix3.det,
    shear_x_from_entries, shear_y_from_entries, Matrix3.mul3_def,
    Matrix3.mk.injEq, PaethRotation3.mk.injEq]

/-- Witness for C4 at the rational rotation by the 3-4-5 angle about the
z axis. -/
theorem paeth3_residual_is_z_shear_and_reconstruct_witness :
    (Matrix3.mk (3/5) (-(4/5)) 0 (4/5) (3/5) 0 0 0 1).m11 ≠ 0 ∧
      mLessX3 ⟨3/5, -(4/5), 0, 4/5, 3/5, 0, 0, 0, 1⟩ =
        some ⟨1, 0, 0, 4/3, 5/3, 0, 0, 0, 1⟩ ∧
      (Matrix3.mk 1 0 0 (4/3) (5/3) 0 0 0 1).m22 ≠ 0 ∧
      ∃ p, PaethRotation3.new_from_matrix ⟨3/5, -(4/5), 0, 4/5, 3/5, 0, 0, 0, 1⟩ =
          some p ∧
        residual3 ⟨3/5, -(4/5), 0, 4/5, 3/5, 0, 0, 0, 1⟩ =
          some (shear_z_from_entries p.zx p.zy p.zz) ∧
        p.shear_z * p.shear_y * p.shear_x = ⟨3/5, -(4/5), 0, 4/5, 3/5, 0, 0, 0, 1⟩ :=
  ⟨by norm_num, mLessX3_rot345, by norm_num,
    paeth3_residual_is_z_shear_and_reconstruct ⟨3/5, -(4/5), 0, 4/5, 3/5, 0, 0, 0, 1⟩
      (by norm_num) ⟨1, 0, 0, 4/3, 5/3, 0, 0, 0, 1⟩ mLessX3_rot345 (by norm_num)⟩

/-- C3 counterexample: for the 3×3 rotation by the 3-4-5 angle about the z
axis (non-degenerate pivots `m11 = 3/5` and derived `yy = 5/3`), the product
of the decomposition's shear matrices in the spec's order
`shear_x() * shear_y() * shear_z()` differs from `R` in the (1,1) entry by
`16/15 > 1e-4`. -/
theorem paeth3_xyz_order_fails :
    PaethRotation3.new_from_matrix ⟨3/5, -(4/5), 0, 4/5, 3/5, 0, 0, 0, 1⟩ =
        some ⟨3/5, -(4/5), 0, 4/3, 5/3, 0, 0, 0, 1⟩ ∧
      |((PaethRotation3.mk (3/5) (-(4/5)) 0 (4/3) (5/3) 0 0 0 1).shear_x *
          (PaethRotation3.mk (3/5) (-(4/5)) 0 (4/3) (5/3) 0 0 0 1).shear_y *
          (PaethRotation3.mk (3/5) (-(4/5)) 0 (4/3) (5/3) 0 0 0 1).shear_z).m11 -
        (Matrix3.mk (3/5) (-(4/5)) 0 (4/5) (3/5) 0 0 0 1).m11| > 1 / 10000 := by
  refine ⟨new3_rot345, ?_⟩
  norm_num [PaethRotation3.shear_x, PaethRotation3.shear_y,
    PaethRotation3.shear_z, shear_x_from_entries, shear_y_from_entries,
    shear_z_from_entries, Matrix3.mul3_def]
  rw [abs_of_nonneg (by norm_num)]
  norm_num

/-- C3 amended: for every 3×3 matrix `R` with non-degenerate pivots
(`m11 ≠ 0` and the derived `yy` pivot of `R * Sx⁻¹` nonzero), the product in
the order `shear_z() * shear_y() * shear_x()` — the reverse of the order the
spec writes — reproduces `R` component-wise within 1e-4 (indeed
exactly). -/
theorem paeth3_zyx_order_within_tol (m : Matrix3) (h1 : m.m11 ≠ 0)
    (m1 : Matrix3) (hm1 : mLessX3 m = some m1) (h2 : m1.m22 ≠ 0) :
    ∃ p, PaethRotation3.new_from_matrix m = some p ∧
      |(p.shear_z * p.shear_y * p.shear_x).m11 - m.m11| ≤ 1 / 10000 ∧
      |(p.shear_z * p.shear_y * p.shear_x).m12 - m.m12| ≤ 1 / 10000 ∧
      |(p.shear_z * p.shear_y * p.shear_x).m13 - m.m13| ≤ 1 / 10000 ∧
      |(p.shear_z * p.shear_y * p.shear_x).m21 - m.m21| ≤ 1 / 10000 ∧
      |(p.shear_z * p.shear_y * p.shear_x).m22 - m.m22| ≤ 1 / 10000 ∧
      |(p.shear_z * p.shear_y * p.shear_x).m23 - m.m23| ≤ 1 / 10000 ∧
      |(p.shear_z * p.shear_y * p.shear_x).m31 - m.m31| ≤ 1 / 10000 ∧
      |(p.shear_z * p.shear_y * p.shear_x).m32 - m.m32| ≤ 1 / 10000 ∧
      |(p.shear_z * p.shear_y * p.shear_x).m33 - m.m33| ≤ 1 / 10000 := by
  obtain ⟨p, hp, _, hprod⟩ := reconstruct3_core m h1 m1 hm1 h2
  refine ⟨p, hp, ?_⟩
  rw [hprod]
  norm_num

/-- Witness for the amended C3 at the rational rotation by the 3-4-5 angle
about the z axis. -/
theorem paeth3_zyx_order_within_tol_witness :
    (Matrix3.mk (3/5) (-(4/5)) 0 (4/5) (3/5) 0 0 0 1).m11 ≠ 0 ∧
      mLessX3 ⟨3/5, -(4/5), 0, 4/5, 3/5, 0, 0, 0, 1⟩ =
        some ⟨1, 0, 0, 4/3, 5/3, 0, 0, 0, 1⟩ ∧
      (Matrix3.mk 1 0 0 (4/3) (5/3) 0 0 0 1).m22 ≠ 0 ∧
      ∃ p, PaethRotation3.new_from_matrix ⟨3/5, -(4/5), 0, 4/5, 3/5, 0, 0, 0, 1⟩ =
          some p ∧
        |(p.shear_z * p.shear_y * p.shear_x).m11 - (3/5 : ℚ)| ≤ 1 / 10000 ∧
        |(p.shear_z * p.shear_y * p.shear_x).m12 - (-(4/5) : ℚ)| ≤ 1 / 10000 ∧
        |(p.shear_z * p.shear_y * p.shear_x).m13 - (0 : ℚ)| ≤ 1 / 10000 ∧
        |(p.shear_z * p.shear_y * p.shear_x).m21 - (4/5 : ℚ)| ≤ 1 / 10000 ∧
        |(p.shear_z * p.shear_y * p.shear_x).m22 - (3/5 : ℚ)| ≤ 1 / 10000 ∧
        |(p.shear_z * p.shear_y * p.shear_x).m23 - (0 : ℚ)| ≤ 1 / 10000 ∧
        |(p.shear_z * p.shear_y * p.shear_x).m31 - (0 : ℚ)| ≤ 1 / 10000 ∧
        |(p.shear_z * p.shear_y * p.shear_x).m32 - (0 : ℚ)| ≤ 1 / 10000 ∧
        |(p.shear_z * p.shear_y * p.shear_x).m33 - (1 : ℚ)| ≤ 1 / 10000 :=
  ⟨by norm_num, mLessX3_rot345, by norm_num,
    paeth3_zyx_order_within_tol ⟨3/5, -(4/5), 0, 4/5, 3/5, 0, 0, 0, 1⟩
      (by norm_num) ⟨1, 0, 0, 4/3, 5/3, 0, 0, 0, 1⟩ mLessX3_rot345 (by norm_num)⟩

/-- C5 counterexample: at the 90° rotations the code does not return any
error value. In 2-d, `PaethRotation2::new_from_matrix` on `[[0,1],[-1,0]]`
(whose `m11` is 0) returns a plain descriptor — the divisions by `m11 = 0`
are performed silently (`0` in the exact embedding, Inf/NaN in floating
point); there is no error return. In 3-d, `PaethRotation3::new_from_matrix`
on the 90° z rotation panics via `.expect(...)` (modelled as `none`)
instead of returning a distinct `DegenerateShearPivot` error: no such error
kind exists anywhere in the code. -/
theorem paeth_degenerate_pivot_no_error :
    PaethRotation2.new_from_matrix ⟨0, 1, -1, 0⟩ = ⟨0, 1, 0, 0⟩ ∧
      PaethRotation3.new_from_matrix ⟨0, -1, 0, 1, 0, 0, 0, 0, 1⟩ = none := by
  constructor
  · norm_num [PaethRotation2.new_from_matrix, PaethRotation2.mk.injEq]
  · norm_num [PaethRotation3.new_from_matrix, inverse3, Matrix3.det,
      shear_x_from_entries]

/-- C5 amended: the 2-d decomposition is total — it never signals any
error, even at `m11 = 0` — and the 3-d decomposition fails (by `expect`
panic, modelled as `none`, not by returning a `DegenerateShearPivot` error)
exactly when a pivot is zero: `m11 = 0` or the derived pivot
`m22 - m21*m12/m11` is zero. -/
theorem paeth3_new_from_matrix_none_iff (m2 : Matrix2) (m : Matrix3) :
    (PaethRotation2.new_from_matrix m2 =
      { xx := m2.m11, xy := m2.m12, yx := m2.m21 / m2.m11
        yy := m2.m22 - m2.m21 * m2.m12 / m2.m11 }) ∧
    (PaethRotation3.new_from_matrix m = none ↔
      m.m11 = 0 ∨ m.m22 - m.m21 * m.m12 / m.m11 = 0) := by
  refine ⟨rfl, ?_⟩
  rcases eq_or_ne m.m11 0 with hm0 | hm0
  · simp [PaethRotation3.new_from_matrix, inverse3, det_shear_x, hm0]
  · have hsx := inverse3_shear_x m.m11 m.m12 m.m13 hm0
    have hyy : (m * ({ m11 := 1 / m.m11, m12 := -(m.m12 / m.m11), m13 := -(m.m13 / m.m11), m21 := 0, m22 := 1, m23 := 0, m31 := 0, m32 := 0, m33 := 1 } : Matrix3)).m22 = m.m22 - m.m21 * m.m12 / m.m11 := by
      show m.m21 * -(m.m12 / m.m11) + m.m22 * 1 + m.m23 * 0 = _
      ring
    rcases eq_or_ne (m.m22 - m.m21 * m.m12 / m.m11) 0 with hy0 | hy0
    · have hy0' : (m * ({ m11 := 1 / m.m11, m12 := -(m.m12 / m.m11), m13 := -(m.m13 / m.m11), m21 := 0, m22 := 1, m23 := 0, m31 := 0, m32 := 0, m33 := 1 } : Matrix3)).m22 = 0 := by rw [hyy]; exact hy0
      simp only [PaethRotation3.new_from_matrix, hsx, Option.some_bind]
      simp only [inverse3, det_shear_y, hy0']
      simp [hy0]
    · have hy0' : (m * ({ m11 := 1 / m.m11, m12 := -(m.m12 / m.m11), m13 := -(m.m13 / m.m11), m21 := 0, m22 := 1, m23 := 0, m31 := 0, m32 := 0, m33 := 1 } : Matrix3)).m22 ≠ 0 := by rw [hyy]; exact hy0
      have hsy := inverse3_shear_y (m * ({ m11 := 1 / m.m11, m12 := -(m.m12 / m.m11), m13 := -(m.m13 / m.m11), m21 := 0, m22 := 1, m23 := 0, m31 := 0, m32 := 0, m33 := 1 } : Matrix3)).m21 (m * ({ m11 := 1 / m.m11, m12 := -(m.m12 / m.m11), m13 := -(m.m13 / m.m11), m21 := 0, m22 := 1, m23 := 0, m31 := 0, m32 := 0, m33 := 1 } : Matrix3)).m22
        (m * ({ m11 := 1 / m.m11, m12 := -(m.m12 / m.m11), m13 := -(m.m13 / m.m11), m21 := 0, m22 := 1, m23 := 0, m31 := 0, m32 := 0, m33 := 1 } : Matrix3)).m23 hy0'
      simp only [PaethRotation3.new_from_matrix, hsx, Option.some_bind, hsy]
      simp [hm0, hy0]

/-! ## OpenCL pipeline (src/opencl.rs) -/

/-- `fmin` (src/opencl.rs lines 11-17). -/
def fmin (x y : ℚ) : ℚ := if x < y then x else y

theorem fmin_eq_min (x y : ℚ) : fmin x y = min x y := by
  rw [fmin, min_def]
  split_ifs with h1 h2 <;> first | rfl | linarith

/-- The scalar kernel arguments bound at positions 0-6 by one shear pass:
scale, offset, anti-alias band half-width, and the four thresholds. -/
structure ShearKernelArgs where
  scale : ℚ
  offset : ℚ
  h : ℚ
  taus : List ℚ

/-- The parameters computed and bound by `ClRotator2::forw_x`
(src/opencl.rs lines 78-95): `cx = 1/xx` (arg 0), `cy = -xy/xx` (arg 1),
`h = fmin(1, 1/|xy|)` (arg 2), and the four thresholds
`±half/xx ± half*xy/xx` sorted ascending by `sort_by(partial_cmp)`
(args 3-6). -/
def forwXArgs (rot : PaethRotation2) : ShearKernelArgs :=
  let cx := 1 / rot.xx
  let cy := -rot.xy / rot.xx
  let h := fmin 1 (1 / |rot.xy|)
  let half : ℚ := 1 / (1 + 1)
  let taus := [half / rot.xx + half * rot.xy / rot.xx,
               half / rot.xx - half * rot.xy / rot.xx,
               (-half) / rot.xx + half * rot.xy / rot.xx,
               (-half) / rot.xx - half * rot.xy / rot.xx]
  { scale := cx, offset := cy, h := h, taus := taus.mergeSort }

/-- The parameters computed and bound by `ClRotator2::forw_y`
(src/opencl.rs lines 114-131): `cy = 1/yy` (arg 0), `cx = -yx/yy` (arg 1),
`h = fmin(1, 1/|yx|)` (arg 2), and the four thresholds
`±half/yy ± half*yx/yy` sorted ascending (args 3-6). -/
def forwYArgs (rot : PaethRotation2) : ShearKernelArgs :=
  let cy := 1 / rot.yy
  let cx := -rot.yx / rot.yy
  let h := fmin 1 (1 / |rot.yx|)
  let half : ℚ := 1 / (1 + 1)
  let taus := [half / rot.yy + half * rot.yx / rot.yy,
               half / rot.yy - half * rot.yx / rot.yy,
               (-half) / rot.yy + half * rot.yx / rot.yy,
               (-half) / rot.yy - half * rot.yx / rot.yy]
  { scale := cy, offset := cx, h := h, taus := taus.mergeSort }

theorem sorted_four_bounds (S : List ℚ) (a b : ℚ)
    (hperm : S.Perm [a + b, a - b, -a + b, -a - b])
    (hsorted : S.Sorted (· ≤ ·)) :
    S.headD 0 = -(|a| + |b|) ∧ S.getLastD 0 = |a| + |b| := by
  have hlen : S.length = 4 := by simpa using hperm.length_eq
  have habs : ∀ x ∈ [a + b, a - b, -a + b, -a - b],
      -(|a| + |b|) ≤ x ∧ x ≤ |a| + |b| := by
    intro x hx
    have ha1 := le_abs_self a
    have ha2 := neg_abs_le a
    have hb1 := le_abs_self b
    have hb2 := neg_abs_le b
    simp only [List.mem_cons, List.not_mem_nil, or_false] at hx
    rcases hx with rfl | rfl | rfl | rfl <;> constructor <;> linarith
  have hlo_mem : -(|a| + |b|) ∈ [a + b, a - b, -a + b, -a - b] := by
    rcases le_total 0 a with ha | ha <;> rcases le_total 0 b with hb | hb <;>
      simp only [List.mem_cons, List.not_mem_nil, or_false]
    · right; right; right; rw [abs_of_nonneg ha, abs_of_nonneg hb] <;> ring
    · right; right; left; rw [abs_of_nonneg ha, abs_of_nonpos hb] <;> ring
    · right; left; rw [abs_of_nonpos ha, abs_of_nonneg hb] <;> ring
    · left; rw [abs_of_nonpos ha, abs_of_nonpos hb] <;> ring
  have hhi_mem : |a| + |b| ∈ [a + b, a - b, -a + b, -a - b] := by
    rcases le_total 0 a with ha | ha <;> rcases le_total 0 b with hb | hb <;>
      simp only [List.mem_cons, List.not_mem_nil, or_false]
    · left; rw [abs_of_nonneg ha, abs_of_nonneg hb]
    · right; left; rw [abs_of_nonneg ha, abs_of_nonpos hb] <;> ring
    · right; right; left; rw [abs_of_nonpos ha, abs_of_nonneg hb] <;> ring
    · right; right; right; rw [abs_of_nonpos ha, abs_of_nonpos hb] <;> ring
  rcases S with _ | ⟨t0, S⟩
  · simp at hlen
  rcases S with _ | ⟨t1, S⟩
  · simp at hlen
  rcases S with _ | ⟨t2, S⟩
  · simp at hlen
  rcases S with _ | ⟨t3, S⟩
  · simp at hlen
  rcases S with _ | ⟨t4, S⟩
  swap
  · simp at hlen
  simp only [List.sorted_cons, List.mem_cons, List.not_mem_nil, or_false,
    forall_eq_or_imp, forall_eq, List.sorted_nil, and_true] at hsorted
  obtain ⟨⟨h01, h02, h03⟩, ⟨h12, h13⟩, h23⟩ := hsorted
  have ht0_mem := hperm.subset (show t0 ∈ [t0, t1, t2, t3] by simp)
  have ht3_mem := hperm.subset (show t3 ∈ [t0, t1, t2, t3] by simp)
  have hlo_in := hperm.symm.subset hlo_mem
  have hhi_in := hperm.symm.subset hhi_mem
  simp only [List.mem_cons, List.not_mem_nil, or_false] at hlo_in hhi_in
  constructor
  · have hge : -(|a| + |b|) ≤ t0 := (habs t0 ht0_mem).1
    have hle : t0 ≤ -(|a| + |b|) := by
      rcases hlo_in with h | h | h | h <;> linarith
    simpa using le_antisymm hle hge
  · have hle : t3 ≤ |a| + |b| := (habs t3 ht3_mem).2
    have hge : |a| + |b| ≤ t3 := by
      rcases hhi_in with h | h | h | h <;> linarith
    simpa [List.getLastD_cons] using le_antisymm hle hge

theorem sorted4_bounds (a b : ℚ) :
    (([a + b, a - b, -a + b, -a - b] : List ℚ).mergeSort.headD 0
        = -(|a| + |b|)) ∧
    (([a + b, a - b, -a + b, -a - b] : List ℚ).mergeSort.getLastD 0
        = |a| + |b|) :=
  sorted_four_bounds _ a b (List.mergeSort_perm _ _) (List.sorted_mergeSort' _)

/-- C7: for each shear pass, with major coefficient `c` and cross
coefficient `k` (x-pass: `c = xx, k = xy`; y-pass: `c = yy, k = yx`), the
kernel arguments are `scale = 1/c`, `offset = -k/c`,
`bandHalfWidth = min(1, 1/|k|)`, and the thresholds are exactly the four
sign combinations `±(1/2)/c ± (1/2)·k/c`, sorted ascending. -/
theorem shear_pass_parameters (rot : PaethRotation2) :
    (forwXArgs rot).scale = 1 / rot.xx ∧
    (forwXArgs rot).offset = -rot.xy / rot.xx ∧
    (forwXArgs rot).h = min 1 (1 / |rot.xy|) ∧
    List.Perm (forwXArgs rot).taus
      [(1/2) / rot.xx + (1/2) * rot.xy / rot.xx,
       (1/2) / rot.xx - (1/2) * rot.xy / rot.xx,
       -((1/2) / rot.xx) + (1/2) * rot.xy / rot.xx,
       -((1/2) / rot.xx) - (1/2) * rot.xy / rot.xx] ∧
    List.Sorted (· ≤ ·) (forwXArgs rot).taus ∧
    (forwYArgs rot).scale = 1 / rot.yy ∧
    (forwYArgs rot).offset = -rot.yx / rot.yy ∧
    (forwYArgs rot).h = min 1 (1 / |rot.yx|) ∧
    List.Perm (forwYArgs rot).taus
      [(1/2) / rot.yy + (1/2) * rot.yx / rot.yy,
       (1/2) / rot.yy - (1/2) * rot.yx / rot.yy,
       -((1/2) / rot.yy) + (1/2) * rot.yx / rot.yy,
       -((1/2) / rot.yy) - (1/2) * rot.yx / rot.yy] ∧
    List.Sorted (· ≤ ·) (forwYArgs rot).taus := by
  refine ⟨rfl, rfl, fmin_eq_min _ _, ?_, ?_, rfl, rfl, fmin_eq_min _ _, ?_, ?_⟩
  · simp only [forwXArgs]
    rw [show [(1/(1+1) : ℚ) / rot.xx + (1/(1+1)) * rot.xy / rot.xx,
        (1/(1+1)) / rot.xx - (1/(1+1)) * rot.xy / rot.xx,
        (-(1/(1+1))) / rot.xx + (1/(1+1)) * rot.xy / rot.xx,
        (-(1/(1+1))) / rot.xx - (1/(1+1)) * rot.xy / rot.xx] =
      [(1/2 : ℚ) / rot.xx + (1/2) * rot.xy / rot.xx,
       (1/2) / rot.xx - (1/2) * rot.xy / rot.xx,
       -((1/2) / rot.xx) + (1/2) * rot.xy / rot.xx,
       -((1/2) / rot.xx) - (1/2) * rot.xy / rot.xx] from by
        norm_num [neg_div]]
    exact List.mergeSort_perm _ _
  · exact List.sorted_mergeSort' _
  · simp only [forwYArgs]
    rw [show [(1/(1+1) : ℚ) / rot.yy + (1/(1+1)) * rot.yx / rot.yy,
        (1/(1+1)) / rot.yy - (1/(1+1)) * rot.yx / rot.yy,
        (-(1/(1+1))) / rot.yy + (1/(1+1)) * rot.yx / rot.yy,
        (-(1/(1+1))) / rot.yy - (1/(1+1)) * rot.yx / rot.yy] =
      [(1/2 : ℚ) / rot.yy + (1/2) * rot.yx / rot.yy,
       (1/2) / rot.yy - (1/2) * rot.yx / rot.yy,
       -((1/2) / rot.yy) + (1/2) * rot.yx / rot.yy,
       -((1/2) / rot.yy) - (1/2) * rot.yx / rot.yy] from by
        norm_num [neg_div]]
    exact List.mergeSort_perm _ _
  · exact List.sorted_mergeSort' _

/-- C8 counterexample: for the shear coefficient pair `(c,k) = (1,2)` (the
x-pass of the descriptor `{xx=1, xy=2, yx=0, yy=0}`), the four sorted
thresholds are `[-3/2, -1/2, 1/2, 3/2]`, so `τ3 - τ0 = 3`, while
`bandHalfWidth = min(1, 1/2) = 1/2` gives `2·bandHalfWidth = 1`: the claimed
bound `τ3 - τ0 ≤ 2·bandHalfWidth` is false. -/
theorem shear_band_bound_fails :
    ¬ ((forwXArgs ⟨1, 2, 0, 0⟩).taus.getLastD 0 -
          (forwXArgs ⟨1, 2, 0, 0⟩).taus.headD 0 ≤
        2 * (forwXArgs ⟨1, 2, 0, 0⟩).h) := by
  have hb := sorted4_bounds ((1/(1+1) : ℚ) / 1) ((1/(1+1) : ℚ) * 2 / 1)
  simp only [forwXArgs, neg_div]
  rw [hb.1, hb.2]
  rw [show |((1/(1+1) : ℚ) / 1)| = 1/2 from by
    rw [abs_of_nonneg (by norm_num)] ; norm_num]
  rw [show |((1/(1+1) : ℚ) * 2 / 1)| = 1 from by
    rw [abs_of_nonneg (by norm_num)] ; norm_num]
  rw [show fmin 1 (1 / |(2 : ℚ)|) = 1/2 from by
    rw [show |(2 : ℚ)| = 2 from abs_of_nonneg (by norm_num)]
    rw [fmin, if_neg (by norm_num)]]
  norm_num

/-- C8 amended: for any shear coefficient pair `(c,k)`, the four thresholds
are returned sorted ascending (see C7), and the exact width of the sorted
threshold range is `τ3 - τ0 = (1 + |k|)/|c|`; the spec's bound
`τ3 - τ0 ≤ 2·bandHalfWidth` with `bandHalfWidth = min(1, 1/|k|)` does not
hold in general. -/
theorem shear_band_width_exact (rot : PaethRotation2) :
    (forwXArgs rot).taus.getLastD 0 - (forwXArgs rot).taus.headD 0 =
      (1 + |rot.xy|) / |rot.xx| ∧
    (forwYArgs rot).taus.getLastD 0 - (forwYArgs rot).taus.headD 0 =
      (1 + |rot.yx|) / |rot.yy| := by
  have habs2 : |(1 + 1 : ℚ)| = 2 := by
    rw [abs_of_nonneg (by norm_num)] ; norm_num
  constructor
  · have hb := sorted4_bounds ((1/(1+1) : ℚ) / rot.xx)
      ((1/(1+1) : ℚ) * rot.xy / rot.xx)
    simp only [forwXArgs, neg_div]
    rw [hb.1, hb.2]
    simp only [abs_div, abs_mul, abs_one, habs2]
    ring
  · have hb := sorted4_bounds ((1/(1+1) : ℚ) / rot.yy)
      ((1/(1+1) : ℚ) * rot.yx / rot.yy)
    simp only [forwYArgs, neg_div]
    rw [hb.1, hb.2]
    simp only [abs_div, abs_mul, abs_one, habs2]
    ring

/-! ## Event choreography of `ClRotator2::forw` (src/opencl.rs lines 146-153)

The OpenCL backend is modelled by a queue state holding the next fresh event
id and the ordered log of kernel dispatches; `run_with_events` appends one
dispatch record (kernel, buffer read, buffer written, wait-list) and returns
a fresh completion event.  The model has no blocking operation at all —
`forw` only chains dispatches and hands the last event back. -/

/-- The two kernels created by `ClRotator2::new`. -/
inductive KernelName where
  | shearX : KernelName
  | shearY : KernelName
deriving DecidableEq

/-- The buffers a pass touches: the caller's `src`/`dst` and the pipeline's
intermediate `tmp`. -/
inductive BufName where
  | srcBuf : BufName
  | tmpBuf : BufName
  | dstBuf : BufName
deriving DecidableEq

/-- One asynchronous kernel dispatch as issued by
`queue.run_with_events(kernel, local, global, wait_for)`. -/
structure Dispatch where
  kernel : KernelName
  readsBuf : BufName
  writesBuf : BufName
  waitFor : List ℕ
  event : ℕ
deriving DecidableEq

/-- The command-queue model: a fresh-event counter and the dispatch log. -/
structure QueueState where
  nextEvent : ℕ
  dispatches : List Dispatch
deriving DecidableEq

/-- `CommandQueue::run_with_events`: append one dispatch gated on `waitFor`
and return its fresh completion event, without blocking. -/
def runWithEvents (k : KernelName) (r w : BufName) (waitFor : List ℕ)
    (s : QueueState) : ℕ × QueueState :=
  (s.nextEvent,
    { nextEvent := s.nextEvent + 1
      dispatches := s.dispatches ++ [⟨k, r, w, waitFor, s.nextEvent⟩] })

/-- `ClRotator2::forw_x` dispatch (src/opencl.rs lines 103-108): the x-shear
kernel reads `src`, writes `tmp`, gated on the given wait list. -/
def forwXDispatch (waitFor : List ℕ) (s : QueueState) : ℕ × QueueState :=
  runWithEvents .shearX .srcBuf .tmpBuf waitFor s

/-- `ClRotator2::forw_y` dispatch (src/opencl.rs lines 139-144): the y-shear
kernel reads `tmp`, writes `dst`, gated on the given wait list. -/
def forwYDispatch (waitFor : List ℕ) (s : QueueState) : ℕ × QueueState :=
  runWithEvents .shearY .tmpBuf .dstBuf waitFor s

/-- `ClRotator2::forw` (src/opencl.rs lines 146-153): dispatch the x pass
gated on the caller's wait list, then the y pass gated on `[evt_x]`, and
return the y pass's event. -/
def forwChain (waitFor : List ℕ) (s : QueueState) : ℕ × QueueState :=
  let r := forwXDispatch waitFor s
  forwYDispatch [r.1] r.2

/-- C9: within one `ClRotator2::forw` call the x-pass is dispatched gated on
the caller-supplied wait list, the y-pass (the only dispatch that writes
`dst`) is gated on exactly the single event returned by the x-pass dispatch,
and `forw` returns the y-pass event; the model contains no blocking
operation, so neither event is waited on. -/
theorem forw_event_chain (waitFor : List ℕ) (s : QueueState) :
    (forwChain waitFor s).2.dispatches =
      s.dispatches ++
        [⟨.shearX, .srcBuf, .tmpBuf, waitFor, s.nextEvent⟩,
         ⟨.shearY, .tmpBuf, .dstBuf, [s.nextEvent], s.nextEvent + 1⟩] ∧
    (forwChain waitFor s).1 = s.nextEvent + 1 := by
  simp [forwChain, forwXDispatch, forwYDispatch, runWithEvents]

/-! ## `ClRotator2::new` center offsets (src/opencl.rs lines 49-72) -/

/-- Rust `usize` subtraction: defined only when it does not underflow (an
underflow panics in a debug build and has no meaningful result in any
build). -/
def usizeSub (a b : ℕ) : Option ℕ :=
  if b ≤ a then some (a - b) else none

/-- The center offsets `wx = from_usize(nx - 1)/2, wy = from_usize(ny - 1)/2`
computed by `ClRotator2::new` (src/opencl.rs lines 64-65); `none` models the
panic of the underflowing `usize` subtraction. -/
def clRotator2Centers (nx ny : ℕ) : Option (ℚ × ℚ) :=
  (usizeSub nx 1).bind fun px =>
    (usizeSub ny 1).map fun py => ((px : ℚ) / 2, (py : ℚ) / 2)

/-- C10: `ClRotator2::new` is only defined for `nx ≥ 1` and `ny ≥ 1`: the
unsigned subtractions `nx - 1`, `ny - 1` underflow (no defined result)
exactly when `nx = 0` or `ny = 0`, and under the precondition construction
proceeds with `wx = (nx-1)/2` and `wy = (ny-1)/2`. -/
theorem clRotator2_new_center_offsets (nx ny : ℕ) :
    (clRotator2Centers nx ny = none ↔ nx = 0 ∨ ny = 0) ∧
    (1 ≤ nx → 1 ≤ ny →
      clRotator2Centers nx ny =
        some (((nx - 1 : ℕ) : ℚ) / 2, ((ny - 1 : ℕ) : ℚ) / 2)) := by
  constructor
  · constructor
    · intro hnone
      by_contra hc
      push_neg at hc
      obtain ⟨h1, h2⟩ := hc
      simp [clRotator2Centers, usizeSub, Nat.one_le_iff_ne_zero.mpr h1,
        Nat.one_le_iff_ne_zero.mpr h2] at hnone
    · rintro (h | h)
      · simp [clRotator2Centers, usizeSub, h]
      · rcases hx : usizeSub nx 1 with _ | px <;>
          simp [clRotator2Centers, usizeSub, h, hx]
  · intro h1 h2
    simp [clRotator2Centers, usizeSub, h1, h2]

/-- Witness for C10 at the 4×4 image size: construction succeeds with
center offsets `wx = wy = 3/2`. -/
theorem clRotator2_new_center_offsets_witness :
    (1 ≤ 4) ∧
      clRotator2Centers 4 4 =
        some ((((4 : ℕ) - 1 : ℕ) : ℚ) / 2, (((4 : ℕ) - 1 : ℕ) : ℚ) / 2) :=
  ⟨by norm_num, (clRotator2_new_center_offsets 4 4).2 (by norm_num) (by norm_num)⟩

end Paeth
